import Mathlib

/-
Verification development for the conversation-orchestration core of the
J123 WhatsApp sales-bot server (src/server.js).

The embedding below translates, function by function, the parts of
src/server.js that the specified properties are about:

  * the session store (chatSessions map, session records, message records),
  * the inference retry helper sendMessageWithRetry (lines 132-155),
  * the context builders (webhook history mapping, lines 826-839; retry
    sweep history mapping, lines 183-190),
  * the tool interpreter loop (lines 864-878 and 215-223),
  * sendWhatsApp dispatch and persistence (lines 699-738),
  * the webhook handler pipeline (lines 747-924),
  * the retry-queue background sweep (lines 159-254),
  * the bot toggle and chat deletion routes (lines 572-592).

JavaScript wall-clock timestamps (new Date) are modelled by a Nat clock
threaded through each pipeline: every append or send advances the clock,
which soundly models the non-decreasing real clock.  JavaScript errors are
modelled by a record carrying the fields the code inspects
(err.status, err.code, err.message, err.response.status,
err.response.data.error.code); absent fields are none.  External effects
(the Gemini provider, the Graph API transport) are oracles passed as
function arguments; outbound transport posts and inter-message delays are
recorded as events.
-/

namespace J123

/-- A binary image payload downloaded from the transport
(downloadMetaImage result: base64 data plus mime type). -/
structure Media where
  mimeType : String
  data : String
  deriving Repr, DecidableEq

/-- One part of a model-input turn: plain text, or inline binary image
data (the shape sent to the provider as inlineData). -/
inductive GPart where
  | text (s : String)
  | inlineData (mimeType : String) (data : String)
  deriving Repr, DecidableEq

/-- One role-tagged history turn handed to the provider
(the objects produced by the history mapping). -/
structure HistoryTurn where
  role : String
  parts : List GPart
  deriving Repr, DecidableEq

/-- A stored chat message (the records pushed onto session.messages).
mtype is the JS field named type; image models the optional image field. -/
structure Message where
  id : String
  sender : String
  timestamp : Nat
  mtype : String
  text : String
  image : Option String
  deriving Repr, DecidableEq

/-- A chat session (the values of the chatSessions map).  The JS code
leaves isEscalated and lastAnalyzedTime undefined on creation; undefined
booleans are modelled as false, undefined times as none. -/
structure Session where
  id : String
  contactName : String
  messages : List Message
  lastMessage : String
  lastMessageTime : Nat
  unreadCount : Nat
  botActive : Bool
  isEscalated : Bool
  lastAnalyzedTime : Option Nat
  deriving Repr, DecidableEq

/-- An inventory product, restricted to the fields the orchestration core
reads (id for tool resolution, images for displayProduct). -/
structure Product where
  id : String
  images : List String
  deriving Repr, DecidableEq

/-- A structured tool invocation returned by the model
(part.functionCall: name plus args.productId / args.reason). -/
structure FunctionCall where
  name : String
  productId : String
  reason : String
  deriving Repr, DecidableEq

/-- One part of the model response (result.candidates[0].content.parts):
an optional text field and an optional functionCall field. -/
structure ModelPart where
  text : Option String
  functionCall : Option FunctionCall
  deriving Repr, DecidableEq

/-- A JavaScript error object, restricted to the fields the code reads:
err.status, err.code, err.message, err.response.status and
err.response.data.error.code.  Absent fields are none. -/
structure JsError where
  status : Option Nat
  code : Option String
  message : String
  responseStatus : Option Nat
  responseDataErrorCode : Option Nat
  deriving Repr, DecidableEq

/-- An outbound transport payload: a text body, or an image link with an
optional caption (empty caption models an absent caption). -/
inductive Payload where
  | text (body : String)
  | image (link : String) (caption : String)
  deriving Repr, DecidableEq

/-- Observable events of one pipeline run: a performed transport post, or
an awaited inter-message delay of the given milliseconds. -/
inductive Ev where
  | sent (toPhone : String) (p : Payload)
  | delayed (ms : Nat)
  deriving Repr, DecidableEq

/-- A retry-queue entry (the objects pushed onto retryQueue at
server.js lines 907-911: to, parts, timestamp). -/
structure QueueEntry where
  toPhone : String
  parts : List GPart
  timestamp : Nat
  deriving Repr, DecidableEq

/-- The server configuration and inventory snapshot a pipeline run reads:
serverConfig.accessToken, process.env.API_KEY, productInventory.
Empty strings model absent (falsy) credentials. -/
structure Env where
  accessToken : String
  apiKey : String
  inventory : List Product
  deriving Repr, DecidableEq

/-- The chatSessions map, as an association list keyed by phone. -/
abbrev Sessions := List (String × Session)

/-- Lookup in the session map (chatSessions[k]). -/
def getS (ss : Sessions) (k : String) : Option Session :=
  (ss.find? (fun kv => kv.1 == k)).map (fun kv => kv.2)

/-- Update/insert in the session map (chatSessions[k] = v). -/
def putS (k : String) (v : Session) (ss : Sessions) : Sessions :=
  (k, v) :: ss.filter (fun kv => kv.1 != k)

/-- The messages of session k, [] when the session does not exist. -/
def messagesOf (ss : Sessions) (k : String) : List Message :=
  match getS ss k with
  | some s => s.messages
  | none => []

/-- The DOMAIN constant of server.js line 19. -/
def DOMAIN : String := "https://whatsapp.johntechvendorsltd.co.ke"

/-! ## Inference Gateway: sendMessageWithRetry (server.js lines 132-155) -/

/-- A JsError with every optional field absent; stands for the JS value
of the uninitialized let lastError (never thrown because maxRetries is
positive). -/
def defaultJsError : JsError := ⟨none, none, "", none, none⟩

/-- Whether the second character list is a leading segment of the first. -/
def startsWithL : List Char → List Char → Bool
  | _, [] => true
  | [], _ :: _ => false
  | c :: s, d :: p => (c == d) && startsWithL s p

/-- Whether the fixed pattern occurs contiguously in the character list. -/
def hasSubL (p : List Char) : List Char → Bool
  | [] => p.isEmpty
  | c :: rest => startsWithL (c :: rest) p || hasSubL p rest

/-- Substring test, used for msg.includes of line 145 (written over the
character lists so that concrete instances evaluate). -/
def containsSub (s pat : String) : Bool := hasSubL pat.data s.data

/-- Left-to-right removal of every non-overlapping occurrence of the
fixed nonempty pattern (JS replace with a global pattern and empty
replacement); the fuel is the list length, consumed one unit per step. -/
def removeSubFuel (p : List Char) : Nat → List Char → List Char
  | 0, s => s
  | Nat.succ _, [] => []
  | Nat.succ n, c :: rest =>
    if startsWithL (c :: rest) p then removeSubFuel p n ((c :: rest).drop p.length)
    else c :: removeSubFuel p n rest

/-- Remove every occurrence of the pattern from the character list. -/
def removeSubL (p s : List Char) : List Char := removeSubFuel p s.length s

/-- The status chain of line 141:
err.response.status, else err.status, else err.response.data.error.code. -/
def retryStatusOf (e : JsError) : Option Nat :=
  match e.responseStatus with
  | some s => some s
  | none =>
    match e.status with
    | some s => some s
    | none => e.responseDataErrorCode

/-- The retry condition of line 145: status 503 or 429, or a message
containing the word overloaded. -/
def isTransientForRetry (e : JsError) : Bool :=
  retryStatusOf e == some 503 || retryStatusOf e == some 429 ||
    containsSub e.message "overloaded"

/-- The loop body of sendMessageWithRetry: attempt i is the provider
outcome of iteration i; fuel counts remaining iterations; last is the JS
lastError variable.  A non-transient error is rethrown immediately;
exhausting the loop throws lastError. -/
def smwrGo (attempt : Nat → Except JsError (List ModelPart)) :
    Nat → Nat → JsError → Except JsError (List ModelPart)
  | _, 0, last => .error last
  | i, Nat.succ fuel, _ =>
    match attempt i with
    | .ok r => .ok r
    | .error e =>
      if isTransientForRetry e then smwrGo attempt (i + 1) fuel e
      else .error e

/-- maxRetries constant of line 133. -/
def maxRetries : Nat := 2

/-- sendMessageWithRetry (lines 132-155), with the provider abstracted
as the attempt oracle. -/
def sendMessageWithRetry (attempt : Nat → Except JsError (List ModelPart)) :
    Except JsError (List ModelPart) :=
  smwrGo attempt 0 maxRetries defaultJsError

/-- The webhook catch enqueue condition of line 906 and the sweep
re-enqueue condition of line 248:
err.status === 503 or err.code === ETIMEDOUT or err.status falsy. -/
def shouldEnqueue (e : JsError) : Bool :=
  e.status == some 503 || e.code == some "ETIMEDOUT" || e.status == none

/-! ## Response extraction and the tool interpreter
(server.js lines 856-878, mirrored at 205-223) -/

/-- Line 861: contentParts.filter(part.text).map(part.text).join.
A part with an absent or empty (falsy) text field is skipped. -/
def extractText (parts : List ModelPart) : String :=
  String.join (parts.filterMap (fun p =>
    match p.text with
    | some s => if s == "" then none else some s
    | none => none))

/-- Line 862: contentParts.filter(part.functionCall).map(part.functionCall). -/
def extractCalls (parts : List ModelPart) : List FunctionCall :=
  parts.filterMap (fun p => p.functionCall)

/-- One iteration of the tool-call loop of lines 868-877: a displayProduct
call that resolves to a product with at least one image overwrites the
staged images with that product's first five; an escalateToAdmin call
sets the silent-lock flag.  The accumulator is (imagesToSend, shouldSilentLock). -/
def applyToolCall (inv : List Product) (acc : List String × Bool)
    (fc : FunctionCall) : List String × Bool :=
  let imgs :=
    if fc.name = "displayProduct" then
      match inv.find? (fun p => p.id == fc.productId) with
      | some p => if p.images.isEmpty then acc.1 else p.images.take 5
      | none => acc.1
    else acc.1
  (imgs, acc.2 || (fc.name == "escalateToAdmin"))

/-- The full tool-call loop (lines 864-878): fold of applyToolCall over
the function calls, starting from no images and no lock. -/
def interpretToolCalls (inv : List Product) (fcs : List FunctionCall) :
    List String × Bool :=
  fcs.foldl (applyToolCall inv) ([], false)

/-- formatResponseText (lines 351-354): strip markdown star, hash and
underscore markers, in the replacement order of the source (double star,
star, double hash, double underscore). -/
def formatResponseText (t : String) : String :=
  String.mk (removeSubL "__".data (removeSubL "##".data
    (removeSubL "*".data (removeSubL "**".data t.data))))

/-! ## Context builders -/

/-- Last n elements of a list (JS slice(-n)). -/
def sliceLast (n : Nat) (xs : List α) : List α := xs.drop (xs.length - n)

/-- Role tag of a history turn (both builders): user messages map to
role user, everything else to role model. -/
def historyRole (m : Message) : String :=
  if m.sender = "user" then "user" else "model"

/-- The webhook history placeholder of lines 834-838: an image message
becomes a text placeholder naming its caption (Photo when empty). -/
def webhookPlaceholder (m : Message) : String :=
  if m.mtype = "image" then
    "[User sent an image labeled: " ++ (if m.text = "" then "Photo" else m.text) ++ "]"
  else m.text

/-- One mapped webhook history turn. -/
def webhookTurnOf (m : Message) : HistoryTurn :=
  ⟨historyRole m, [GPart.text (webhookPlaceholder m)]⟩

/-- The webhook Context Builder of lines 828-839:
messages.slice(0,-1).slice(-30).filter(m.text or image).map(...). -/
def webhookHistoryParts (msgs : List Message) : List HistoryTurn :=
  ((sliceLast 30 msgs.dropLast).filter
    (fun m => m.text != "" || m.mtype == "image")).map webhookTurnOf

/-- One mapped sweep history turn (lines 187-190): image messages become
the fixed placeholder [Image]. -/
def sweepTurnOf (m : Message) : HistoryTurn :=
  ⟨historyRole m, [GPart.text (if m.mtype = "image" then "[Image]" else m.text)]⟩

/-- The sweep Context Builder of lines 184-190:
messages.filter(timestamp before the entry).slice(-30).map(...). -/
def sweepHistoryParts (msgs : List Message) (entryTs : Nat) : List HistoryTurn :=
  (sliceLast 30 (msgs.filter (fun m => decide (m.timestamp < entryTs)))).map sweepTurnOf

/-! ## Dispatch and persistence: sendWhatsApp (server.js lines 699-738) -/

/-- The per-run outcome of sendWhatsApp: updated session map, advanced
clock, next transport-call index, performed-post events, and the error
rethrown by the catch of line 737 (none on success). -/
structure SendRes where
  sessions : Sessions
  clock : Nat
  sendIdx : Nat
  events : List Ev
  err : Option JsError
  deriving Repr

/-- The session created by sendWhatsApp lines 703-713 when the recipient
has no session yet (isEscalated and lastAnalyzedTime left undefined). -/
def freshOutboundSession (k : String) (clock : Nat) : Session :=
  { id := k, contactName := "Client " ++ k, messages := [], lastMessage := "",
    lastMessageTime := clock, unreadCount := 0, botActive := true,
    isEscalated := false, lastAnalyzedTime := none }

/-- The storageMsg record of lines 714-721: bot-sent message stamped with
the current clock; an image payload stores its link, an empty caption
becomes the text Sent Image. -/
def storageMsgOf (clock : Nat) (p : Payload) : Message :=
  { id := toString clock, sender := "bot", timestamp := clock,
    mtype := match p with | .text _ => "text" | .image _ _ => "image",
    text := match p with
      | .text b => b
      | .image _ cap => if cap = "" then "Sent Image" else cap,
    image := match p with | .text _ => none | .image link _ => some link }

/-- The recipient session before the append: the existing one, or the
fresh session of lines 703-713. -/
def sendBaseSession (ss : Sessions) (k : String) (clock : Nat) : Session :=
  match getS ss k with
  | some s => s
  | none => freshOutboundSession k clock

/-- The recipient session after the append of lines 723-726: message
pushed, summary fields updated, unread count zeroed for admin sends. -/
def sendUpdatedSession (ss : Sessions) (k : String) (clock : Nat)
    (p : Payload) (isAdmin : Bool) : Session :=
  let s := sendBaseSession ss k clock
  { s with
    messages := s.messages ++ [storageMsgOf clock p],
    lastMessage := (storageMsgOf clock p).text,
    lastMessageTime := clock,
    unreadCount := if isAdmin then 0 else s.unreadCount }

/-- sendWhatsApp (lines 699-738).  With no access token it returns at
once (line 700).  Otherwise it appends the message to the session store
FIRST (lines 723-727) and only then performs the transport post
(lines 729-733); a failing post (tr sendIdx = some e) is rethrown as err
and leaves the appended message in place. -/
def sendWhatsApp (tok : String) (tr : Nat → Option JsError) (ss : Sessions)
    (clock sendIdx : Nat) (toPhone : String) (p : Payload) (isAdmin : Bool) :
    SendRes :=
  if tok = "" then ⟨ss, clock, sendIdx, [], none⟩
  else
    let ss2 := putS toPhone (sendUpdatedSession ss toPhone clock p isAdmin) ss
    match tr sendIdx with
    | none => ⟨ss2, clock + 1, sendIdx + 1, [Ev.sent toPhone p], none⟩
    | some e => ⟨ss2, clock + 1, sendIdx + 1, [], some e⟩

/-- The render-image link of lines 234 and 890. -/
def imageLink (pid : String) (i : Nat) : String :=
  DOMAIN ++ "/api/render-image/" ++ pid ++ "/" ++ toString i

/-- The JS TypeError raised when productInventory.find of line 890/234
returns undefined and .id is read from it (no status, no code). -/
def typeErrorJs : JsError :=
  ⟨none, none, "Cannot read properties of undefined", none, none⟩

/-- Intermediate state of the image-send loop. -/
structure LoopRes where
  sessions : Sessions
  clock : Nat
  sendIdx : Nat
  events : List Ev
  err : Option JsError
  deriving Repr

/-- The image-send loop shared by the webhook (lines 888-894, with an
await of 800 ms after each send: delayMs = some 800) and the sweep
(lines 232-237, with no delay: delayMs = none).  i is the loop index, the
last argument the number of remaining images; a throwing send aborts the
loop and surfaces the error. -/
def sendImagesLoop (tok : String) (tr : Nat → Option JsError)
    (toPhone pid : String) (delayMs : Option Nat) :
    Nat → Nat → Sessions → Nat → Nat → LoopRes
  | _, 0, ss, clock, sendIdx => ⟨ss, clock, sendIdx, [], none⟩
  | i, Nat.succ n, ss, clock, sendIdx =>
    let r := sendWhatsApp tok tr ss clock sendIdx toPhone
      (Payload.image (imageLink pid i) "") false
    match r.err with
    | some e => ⟨r.sessions, r.clock, r.sendIdx, r.events, some e⟩
    | none =>
      let dEvs := match delayMs with | some d => [Ev.delayed d] | none => []
      let rest := sendImagesLoop tok tr toPhone pid delayMs (i + 1) n
        r.sessions r.clock r.sendIdx
      ⟨rest.sessions, rest.clock, rest.sendIdx,
        r.events ++ dEvs ++ rest.events, rest.err⟩

/-! ## The webhook pipeline (server.js lines 747-924) -/

/-- The result of one pipeline run (webhook turn or sweep item):
session map, retry queue, performed events, advanced clock. -/
structure TurnOut where
  sessions : Sessions
  queue : List QueueEntry
  events : List Ev
  clock : Nat
  deriving Repr

/-- An inbound webhook event: sender phone, provider message id, profile
name (empty when absent), and either a text body or an image (caption
empty when absent, media none when the download of line 792 failed).
other stands for any unsupported message type (line 800). -/
inductive Inbound where
  | text (fromPhone mid profileName body : String)
  | image (fromPhone mid profileName caption : String) (media : Option Media)
  | other
  deriving Repr, DecidableEq

/-- The profile name carried by the event. -/
def inboundName : Inbound → String
  | .text _ _ nm _ => nm
  | .image _ _ nm _ _ => nm
  | .other => ""

/-- The data-URL stored for a downloaded inbound image (line 796). -/
def dataUrl (m : Media) : String := "data:" ++ m.mimeType ++ ";base64," ++ m.data

/-- Lines 776-800: the incoming message record and the geminiParts of the
active turn.  A downloaded image contributes inline binary data plus its
caption (or the fixed Analyze prompt); a failed download leaves
geminiParts empty.  none for unsupported types (the early return). -/
def mkIncoming (clock : Nat) : Inbound → Option (String × Message × List GPart)
  | .text fromPhone mid _ body =>
    some (fromPhone, ⟨mid, "user", clock, "text", body, none⟩, [GPart.text body])
  | .image fromPhone mid _ cap media =>
    match media with
    | some m =>
      some (fromPhone,
        ⟨mid, "user", clock, "image", (if cap = "" then "Photo" else cap), some (dataUrl m)⟩,
        [GPart.inlineData m.mimeType m.data,
         GPart.text (if cap = "" then "Analyze this image." else cap)])
    | none =>
      some (fromPhone,
        ⟨mid, "user", clock, "image", (if cap = "" then "Photo" else cap), none⟩, [])
  | .other => none

/-- Lines 762-774: get-or-create of the sender session; an existing
session only has its contactName refreshed when the event carries one. -/
def baseSession (ss : Sessions) (k nm : String) (clock : Nat) : Session :=
  match getS ss k with
  | some s => if nm = "" then s else { s with contactName := nm }
  | none =>
    { id := k, contactName := if nm = "" then "Client " ++ k else nm,
      messages := [], lastMessage := "", lastMessageTime := clock,
      unreadCount := 0, botActive := true, isEscalated := false,
      lastAnalyzedTime := none }

/-- Lines 802-805: the sender session after the inbound append — message
pushed, summary fields updated, unreadCount incremented. -/
def appendedSession (s : Session) (m : Message) (clock : Nat) : Session :=
  { s with
    messages := s.messages ++ [m],
    lastMessage := m.text,
    lastMessageTime := clock,
    unreadCount := s.unreadCount + 1 }

/-- The session map after the inbound event was recorded (lines 762-806). -/
def afterInbound (ss : Sessions) (k nm : String) (clock : Nat) (m : Message) :
    Sessions :=
  putS k (appendedSession (baseSession ss k nm clock) m clock) ss

/-- botActive of the sender session as the lock check of line 809 will
see it: the stored flag, or true for a session created by this event. -/
def preActive (ss : Sessions) (k : String) : Bool :=
  match getS ss k with
  | some s => s.botActive
  | none => true

/-- The queue after the catch of lines 901-914: a transient-classified
error (shouldEnqueue) appends a fresh entry with the active-turn parts
and the current time. -/
def enqIf (q : List QueueEntry) (f : String) (g : List GPart) (e : JsError)
    (c : Nat) : List QueueEntry :=
  if shouldEnqueue e then q ++ [⟨f, g, c⟩] else q

/-- The image-dispatch preamble of lines 888-894 (and 232-237): no
staged images do nothing; otherwise the product whose image list contains
the first staged image is looked up for the render link (an impossible
miss would raise the modelled TypeError) and the image loop runs. -/
def imagesStage (tok : String) (tr : Nat → Option JsError)
    (inv : List Product) (delayMs : Option Nat) (ss : Sessions) (clock : Nat)
    (toPhone : String) (imgs : List String) : LoopRes :=
  match imgs with
  | [] => ⟨ss, clock, 0, [], none⟩
  | img0 :: _ =>
    match inv.find? (fun p => p.images.contains img0) with
    | none => ⟨ss, clock, 0, [], some typeErrorJs⟩
    | some p => sendImagesLoop tok tr toPhone p.id delayMs 0 imgs.length ss clock 0

/-- The text send and catch handling following the image loop
(lines 896-900 with the enclosing catch of 901-914; lines 239-242 with
the catch of 245-252). -/
def dispatchFinish (tok : String) (tr : Nat → Option JsError)
    (toPhone : String) (txt : String) (q : List QueueEntry)
    (qErr : JsError → Nat → List QueueEntry) (r : LoopRes) : TurnOut :=
  match r.err with
  | some e => ⟨r.sessions, qErr e r.clock, r.events, r.clock⟩
  | none =>
    if txt = "" then ⟨r.sessions, q, r.events, r.clock⟩
    else
      let r2 := sendWhatsApp tok tr r.sessions r.clock r.sendIdx toPhone
        (Payload.text (formatResponseText txt)) false
      match r2.err with
      | some e => ⟨r2.sessions, qErr e r2.clock, r.events ++ r2.events, r2.clock⟩
      | none => ⟨r2.sessions, q, r.events ++ r2.events, r2.clock⟩

/-- The dispatch tail shared by the webhook (lines 888-900, delayMs =
some 800) and the sweep (lines 232-241, delayMs = none): images first,
each as its own send, then the formatted text; qErr is the enclosing
catch (webhook: enqueue a fresh entry; sweep: re-push the original item). -/
def dispatchStage (tok : String) (tr : Nat → Option JsError)
    (inv : List Product) (delayMs : Option Nat) (ss : Sessions) (clock : Nat)
    (toPhone : String) (imgs : List String) (txt : String)
    (q : List QueueEntry) (qErr : JsError → Nat → List QueueEntry) : TurnOut :=
  dispatchFinish tok tr toPhone txt q qErr
    (imagesStage tok tr inv delayMs ss clock toPhone imgs)

/-- Result interpretation after a successful inference call (lines
856-900 and 205-241).  When any tool call is an escalation the session
is locked (botActive false, isEscalated true together) and nothing is
dispatched; should the session have vanished, the JS property write
would throw a TypeError into the enclosing catch. -/
def respondStage (tok : String) (tr : Nat → Option JsError)
    (inv : List Product) (delayMs : Option Nat) (ss : Sessions)
    (q : List QueueEntry) (clock : Nat) (toPhone : String)
    (parts : List ModelPart) (qErr : JsError → Nat → List QueueEntry) : TurnOut :=
  let txt := extractText parts
  let its := interpretToolCalls inv (extractCalls parts)
  if its.2 = true then
    match getS ss toPhone with
    | some s =>
      ⟨putS toPhone { s with botActive := false, isEscalated := true } ss,
        q, [], clock⟩
    | none => ⟨ss, qErr typeErrorJs clock, [], clock⟩
  else
    dispatchStage tok tr inv delayMs ss clock toPhone its.1 txt q qErr

/-- The inference-and-respond stage of the webhook try block
(lines 852-914): call sendMessageWithRetry on the active parts; a
surfaced error goes to the catch (enqueue when transient-classified),
success goes to the response stage. -/
def webhookInfer (env : Env) (tr : Nat → Option JsError)
    (att : List HistoryTurn → List GPart → Nat → Except JsError (List ModelPart))
    (ss1 : Sessions) (q : List QueueEntry) (c1 : Nat) (f : String)
    (g : List GPart) (hist : List HistoryTurn) : TurnOut :=
  match sendMessageWithRetry (att hist g) with
  | .error e => ⟨ss1, enqIf q f g e c1, [], c1⟩
  | .ok parts =>
    respondStage env.accessToken tr env.inventory (some 800) ss1 q c1 f parts
      (fun e c => enqIf q f g e c)

/-- The body of the webhook handler after event decoding (lines 762-924):
record the inbound message, stop if the bot is locked (line 809), send
the fixed system notice if the AI key is missing (lines 814-818), stop on
empty parts (line 820), else build history from the appended session and
run inference. -/
def webhookCore (env : Env) (tr : Nat → Option JsError)
    (att : List HistoryTurn → List GPart → Nat → Except JsError (List ModelPart))
    (ss : Sessions) (q : List QueueEntry) (clock : Nat) (f nm : String)
    (m : Message) (g : List GPart) : TurnOut :=
  let s1 := appendedSession (baseSession ss f nm clock) m clock
  let ss1 := putS f s1 ss
  let c1 := clock + 1
  if s1.botActive = false then ⟨ss1, q, [], c1⟩
  else if env.apiKey = "" then
    let r := sendWhatsApp env.accessToken tr ss1 c1 0 f
      (Payload.text "⚠️ System Alert: AI Config Missing.") false
    ⟨r.sessions, q, r.events, r.clock⟩
  else if g = [] then ⟨ss1, q, [], c1⟩
  else webhookInfer env tr att ss1 q c1 f g (webhookHistoryParts s1.messages)

/-- One full webhook turn (lines 747-924): decode the inbound event and
run the core; unsupported events return at once. -/
def processWebhook (env : Env) (tr : Nat → Option JsError)
    (att : List HistoryTurn → List GPart → Nat → Except JsError (List ModelPart))
    (ss : Sessions) (q : List QueueEntry) (clock : Nat) (inb : Inbound) : TurnOut :=
  match mkIncoming clock inb with
  | none => ⟨ss, q, [], clock⟩
  | some (f, m, g) => webhookCore env tr att ss q clock f (inboundName inb) m g

/-! ## The retry-queue sweep (server.js lines 159-254) -/

/-- One sweep iteration for one queued item (lines 172-253): a missing or
locked target session discards the item with no inference call; otherwise
history is rebuilt from messages strictly before the entry timestamp and
the same response stage runs, with no inter-image delay; the catch
re-pushes the original item when the error is transient-classified. -/
def sweepItem (env : Env) (tr : Nat → Option JsError)
    (att : List HistoryTurn → List GPart → Nat → Except JsError (List ModelPart))
    (ss : Sessions) (q : List QueueEntry) (clock : Nat) (item : QueueEntry) : TurnOut :=
  match getS ss item.toPhone with
  | none => ⟨ss, q, [], clock⟩
  | some s =>
    if s.botActive = false then ⟨ss, q, [], clock⟩
    else
      match sendMessageWithRetry (att (sweepHistoryParts s.messages item.timestamp) item.parts) with
      | .error e =>
        ⟨ss, (if shouldEnqueue e then q ++ [item] else q), [], clock⟩
      | .ok parts =>
        respondStage env.accessToken tr env.inventory none ss q clock
          item.toPhone parts
          (fun e _ => if shouldEnqueue e then q ++ [item] else q)

/-- The sweep loop over the snapshotted batch (lines 172-253), threading
session map, rebuilt queue, clock and events. -/
def sweepLoop (env : Env) (tr : Nat → Option JsError)
    (attFor : QueueEntry → List HistoryTurn → List GPart → Nat → Except JsError (List ModelPart)) :
    List QueueEntry → Sessions → List QueueEntry → Nat → List Ev → TurnOut
  | [], ss, q, clock, evs => ⟨ss, q, evs, clock⟩
  | item :: rest, ss, q, clock, evs =>
    let r := sweepItem env tr (attFor item) ss q clock item
    sweepLoop env tr attFor rest r.sessions r.queue r.clock (evs ++ r.events)

/-- One sweep tick (lines 159-254): nothing happens on an empty queue or
a missing AI key (the queue is kept); otherwise the queue is snapshotted
and cleared, and every item is processed in order. -/
def processSweep (env : Env) (tr : Nat → Option JsError)
    (attFor : QueueEntry → List HistoryTurn → List GPart → Nat → Except JsError (List ModelPart))
    (ss : Sessions) (q : List QueueEntry) (clock : Nat) : TurnOut :=
  if q = [] then ⟨ss, q, [], clock⟩
  else if env.apiKey = "" then ⟨ss, q, [], clock⟩
  else sweepLoop env tr attFor q ss [] clock []

/-! ## Admin routes touching session flags (server.js lines 572-592) -/

/-- POST /api/chat/:id/toggle-bot (lines 583-592): set botActive; a
release (active=true) also clears isEscalated; unknown ids are a 404
no-op. -/
def toggleBot (ss : Sessions) (k : String) (active : Bool) : Sessions :=
  match getS ss k with
  | none => ss
  | some s =>
    putS k { s with
      botActive := active,
      isEscalated := if active then false else s.isEscalated } ss

/-- DELETE /api/chat/:id (lines 572-581). -/
def deleteChat (ss : Sessions) (k : String) : Sessions :=
  ss.filter (fun kv => kv.1 != k)

/-- The lastAnalyzedTime watermark update of performLeadAnalysis
(lines 538-543); the only session mutation the Lead Analyzer performs. -/
def setLastAnalyzed (ss : Sessions) (ks : List String) (now : Nat) : Sessions :=
  ks.foldl (fun acc k =>
    match getS acc k with
    | none => acc
    | some s => putS k { s with lastAnalyzedTime := some now } acc) ss

/-! ## Observation predicates -/

/-- The lock/flag condition of one session: isEscalated implies not
botActive. -/
def flagOkB (s : Session) : Bool := !s.isEscalated || !s.botActive

/-- The lock invariant over the whole session map. -/
def invB (ss : Sessions) : Bool := ss.all (fun kv => flagOkB kv.2)

/-- Whether an event is a performed transport post. -/
def isSentEv : Ev → Bool
  | .sent _ _ => true
  | .delayed _ => false

/-- The performed transport posts of an event trace. -/
def sentEvents (evs : List Ev) : List Ev := evs.filter isSentEv

/-- Whether an event posts an image payload. -/
def isSentImage : Ev → Bool
  | .sent _ (Payload.image _ _) => true
  | _ => false

/-- Whether an event posts a text payload. -/
def isSentText : Ev → Bool
  | .sent _ (Payload.text _) => true
  | _ => false

/-- Whether an event is an awaited delay. -/
def isDelayedEv : Ev → Bool
  | .delayed _ => true
  | _ => false

/-- Every image post in the trace is immediately followed by a nonzero
awaited delay (the inter-message pacing the spec asks of image sends). -/
def imageDelayedOk : List Ev → Bool
  | [] => true
  | Ev.sent _ (Payload.image _ _) :: rest =>
    match rest with
    | Ev.delayed d :: r2 => decide (0 < d) && imageDelayedOk r2
    | _ => false
  | _ :: rest => imageDelayedOk rest

/-- A nonempty message run consisting of image messages followed by one
final text message. -/
def imagesThenText : List Message → Bool
  | [] => false
  | [m] => m.mtype == "text"
  | m :: rest => m.mtype == "image" && imagesThenText rest

/-- Adjacent timestamps never decrease. -/
def nondecTs : List Message → Bool
  | [] => true
  | [_] => true
  | a :: b :: rest => decide (a.timestamp ≤ b.timestamp) && nondecTs (b :: rest)

/-- A history turn carrying no inline binary data. -/
def turnTextOnly (t : HistoryTurn) : Bool :=
  t.parts.all (fun p => match p with | GPart.inlineData _ _ => false | _ => true)

/-- The discard condition of sweep line 175: target session missing or
locked. -/
def sweepDiscard (ss : Sessions) (item : QueueEntry) : Bool :=
  match getS ss item.toPhone with
  | none => true
  | some s => s.botActive == false

/-- The event trace the image loop produces when every transport post
succeeds: one post per image, each followed by the configured delay. -/
def expectedImgEvents (toPhone pid : String) (d : Option Nat) :
    Nat → Nat → List Ev
  | _, 0 => []
  | i, Nat.succ n =>
    Ev.sent toPhone (Payload.image (imageLink pid i) "") ::
      ((match d with | some ms => [Ev.delayed ms] | none => []) ++
        expectedImgEvents toPhone pid d (i + 1) n)

/-- The message records the image loop appends when every transport post
succeeds: one image message per index, at consecutive clock ticks. -/
def expectedImgMsgs (pid : String) : Nat → Nat → Nat → List Message
  | _, 0, _ => []
  | i, Nat.succ n, c =>
    storageMsgOf c (Payload.image (imageLink pid i) "") ::
      expectedImgMsgs pid (i + 1) n (c + 1)

/-! ## Session-map lemmas -/

theorem getS_putS_self (ss : Sessions) (k : String) (v : Session) :
    getS (putS k v ss) k = some v := by
  simp [getS, putS, List.find?_cons]

theorem find?_filter_key (l : Sessions) (k j : String) (h : j ≠ k) :
    (l.filter (fun kv => kv.1 != k)).find? (fun kv => kv.1 == j) =
    l.find? (fun kv => kv.1 == j) := by
  induction l with
  | nil => rfl
  | cons a l ih =>
    by_cases hj : a.1 = j
    · have h2 : (a.1 != k) = true := by
        simp [bne_iff_ne]
        rw [hj]; exact h
      simp [List.filter_cons, h2, List.find?_cons, hj, h]
    · by_cases hk : a.1 = k
      · have h2 : (a.1 != k) = false := by simp [hk]
        have h1 : (a.1 == j) = false := by simp [hj]
        simp [List.filter_cons, h2, ih, List.find?_cons, h1]
      · have h2 : (a.1 != k) = true := by simp [hk]
        have h1 : (a.1 == j) = false := by simp [hj]
        simp [List.filter_cons, h2, List.find?_cons, h1, ih]

theorem getS_putS_ne (ss : Sessions) (k j : String) (v : Session)
    (h : j ≠ k) : getS (putS k v ss) j = getS ss j := by
  have hh : (k == j) = false := by
    simp only [beq_eq_false_iff_ne]
    exact fun e => h e.symm
  simp [getS, putS, List.find?_cons, hh, find?_filter_key _ _ _ h]

/-! ## Preservation of the lock invariant -/

theorem all_filter_of_all {f g : String × Session → Bool} {l : Sessions}
    (h : l.all f = true) : (l.filter g).all f = true := by
  rw [List.all_eq_true] at *
  intro x hx
  exact h x (List.mem_of_mem_filter hx)

theorem invB_putS {ss : Sessions} {k : String} {v : Session}
    (hv : flagOkB v = true) (h : invB ss = true) : invB (putS k v ss) = true := by
  simp only [invB, putS, List.all_cons, hv, Bool.true_and]
  exact all_filter_of_all h

theorem invB_getS {ss : Sessions} {k : String} {s : Session}
    (h : invB ss = true) (hg : getS ss k = some s) : flagOkB s = true := by
  simp only [getS, Option.map_eq_some'] at hg
  obtain ⟨kv, hfind, hs⟩ := hg
  have hmem : kv ∈ ss := List.mem_of_find?_eq_some hfind
  rw [invB, List.all_eq_true] at h
  exact hs ▸ h kv hmem

theorem flagOkB_baseSession {ss : Sessions} {k nm : String} {clock : Nat}
    (h : invB ss = true) : flagOkB (baseSession ss k nm clock) = true := by
  unfold baseSession
  cases hg : getS ss k with
  | some s =>
    have := invB_getS h hg
    by_cases hnm : nm = "" <;> simp [hnm, flagOkB] <;>
      simpa [flagOkB] using this
  | none => rfl

theorem flagOkB_appendedSession {s : Session} {m : Message} {clock : Nat} :
    flagOkB (appendedSession s m clock) = flagOkB s := rfl

theorem flagOkB_sendUpdatedSession {ss : Sessions} {k : String} {clock : Nat}
    {p : Payload} {adm : Bool} (h : invB ss = true) :
    flagOkB (sendUpdatedSession ss k clock p adm) = true := by
  have : flagOkB (sendBaseSession ss k clock) = true := by
    unfold sendBaseSession
    cases hg : getS ss k with
    | some s => exact invB_getS h hg
    | none => rfl
  simpa [sendUpdatedSession, flagOkB] using this

theorem inv_sendWhatsApp (tok : String) (tr : Nat → Option JsError)
    (ss : Sessions) (clock sendIdx : Nat) (toPhone : String) (p : Payload)
    (adm : Bool) (h : invB ss = true) :
    invB (sendWhatsApp tok tr ss clock sendIdx toPhone p adm).sessions = true := by
  unfold sendWhatsApp
  by_cases ht : tok = ""
  · simpa [ht] using h
  · have hv := @flagOkB_sendUpdatedSession ss toPhone clock p adm h
    cases htr : tr sendIdx <;> simp [ht, htr, invB_putS hv h]

theorem inv_sendImagesLoop (tok : String) (tr : Nat → Option JsError)
    (toPhone pid : String) (d : Option Nat) :
    ∀ (n i : Nat) (ss : Sessions) (clock sendIdx : Nat), invB ss = true →
    invB (sendImagesLoop tok tr toPhone pid d i n ss clock sendIdx).sessions = true := by
  intro n
  induction n with
  | zero => intro i ss clock sendIdx h; simpa [sendImagesLoop] using h
  | succ n ih =>
    intro i ss clock sendIdx h
    unfold sendImagesLoop
    have h1 := inv_sendWhatsApp tok tr ss clock sendIdx toPhone
      (Payload.image (imageLink pid i) "") false h
    cases hr : (sendWhatsApp tok tr ss clock sendIdx toPhone
        (Payload.image (imageLink pid i) "") false).err with
    | some e => simpa [hr] using h1
    | none => simpa [hr] using ih (i + 1) _ _ _ h1

theorem inv_dispatchFinish (tok : String) (tr : Nat → Option JsError)
    (toPhone txt : String) (q : List QueueEntry)
    (qErr : JsError → Nat → List QueueEntry) (r : LoopRes)
    (h : invB r.sessions = true) :
    invB (dispatchFinish tok tr toPhone txt q qErr r).sessions = true := by
  unfold dispatchFinish
  cases r.err with
  | some e => simpa using h
  | none =>
    by_cases htxt : txt = ""
    · simpa [htxt] using h
    · have h2 := inv_sendWhatsApp tok tr r.sessions r.clock r.sendIdx toPhone
        (Payload.text (formatResponseText txt)) false h
      simp only [htxt, if_neg]
      cases (sendWhatsApp tok tr r.sessions r.clock r.sendIdx toPhone
          (Payload.text (formatResponseText txt)) false).err <;> simpa using h2

theorem inv_imagesStage (tok : String) (tr : Nat → Option JsError)
    (inv : List Product) (d : Option Nat) (ss : Sessions) (clock : Nat)
    (toPhone : String) (imgs : List String) (h : invB ss = true) :
    invB (imagesStage tok tr inv d ss clock toPhone imgs).sessions = true := by
  unfold imagesStage
  split
  · exact h
  · split
    · exact h
    · exact inv_sendImagesLoop _ _ _ _ _ _ _ _ _ _ h

theorem inv_dispatchStage (tok : String) (tr : Nat → Option JsError)
    (inv : List Product) (d : Option Nat) (ss : Sessions) (clock : Nat)
    (toPhone : String) (imgs : List String) (txt : String)
    (q : List QueueEntry) (qErr : JsError → Nat → List QueueEntry)
    (h : invB ss = true) :
    invB (dispatchStage tok tr inv d ss clock toPhone imgs txt q qErr).sessions = true :=
  inv_dispatchFinish tok tr toPhone txt q qErr _
    (inv_imagesStage tok tr inv d ss clock toPhone imgs h)

theorem inv_respondStage (tok : String) (tr : Nat → Option JsError)
    (inv : List Product) (d : Option Nat) (ss : Sessions)
    (q : List QueueEntry) (clock : Nat) (toPhone : String)
    (parts : List ModelPart) (qErr : JsError → Nat → List QueueEntry)
    (h : invB ss = true) :
    invB (respondStage tok tr inv d ss q clock toPhone parts qErr).sessions = true := by
  unfold respondStage
  by_cases hlock : (interpretToolCalls inv (extractCalls parts)).2 = true
  · simp only [hlock, if_pos]
    cases hg : getS ss toPhone with
    | some s =>
      have hv : flagOkB { s with botActive := false, isEscalated := true } = true := by
        simp [flagOkB]
      simpa [hg] using invB_putS hv h
    | none => simpa [hg] using h
  · simp only [hlock, if_neg]
    exact inv_dispatchStage tok tr inv d ss clock toPhone _ _ q qErr h

theorem inv_webhookInfer (env : Env) (tr : Nat → Option JsError)
    (att : List HistoryTurn → List GPart → Nat → Except JsError (List ModelPart))
    (ss1 : Sessions) (q : List QueueEntry) (c1 : Nat) (f : String)
    (g : List GPart) (hist : List HistoryTurn) (h : invB ss1 = true) :
    invB (webhookInfer env tr att ss1 q c1 f g hist).sessions = true := by
  unfold webhookInfer
  cases sendMessageWithRetry (att hist g) with
  | error e => simpa using h
  | ok parts => exact inv_respondStage _ tr _ _ ss1 q c1 f parts _ h

theorem inv_afterInbound (ss : Sessions) (k nm : String) (clock : Nat)
    (m : Message) (h : invB ss = true) :
    invB (afterInbound ss k nm clock m) = true := by
  unfold afterInbound
  exact invB_putS (by rw [flagOkB_appendedSession]; exact flagOkB_baseSession h) h

theorem inv_webhookCore (env : Env) (tr : Nat → Option JsError)
    (att : List HistoryTurn → List GPart → Nat → Except JsError (List ModelPart))
    (ss : Sessions) (q : List QueueEntry) (clock : Nat) (f nm : String)
    (m : Message) (g : List GPart) (h : invB ss = true) :
    invB (webhookCore env tr att ss q clock f nm m g).sessions = true := by
  unfold webhookCore
  have h1 : invB (putS f (appendedSession (baseSession ss f nm clock) m clock) ss) = true :=
    inv_afterInbound ss f nm clock m h
  by_cases hb : (appendedSession (baseSession ss f nm clock) m clock).botActive = false
  · simpa [hb] using h1
  · by_cases hk : env.apiKey = ""
    · have h2 := inv_sendWhatsApp env.accessToken tr
        (putS f (appendedSession (baseSession ss f nm clock) m clock) ss) (clock + 1) 0 f
        (Payload.text "⚠️ System Alert: AI Config Missing.") false h1
      simpa [hb, hk] using h2
    · by_cases hg : g = []
      · simpa [hb, hk, hg] using h1
      · have h3 := inv_webhookInfer env tr att
          (putS f (appendedSession (baseSession ss f nm clock) m clock) ss) q (clock + 1) f g
          (webhookHistoryParts (appendedSession (baseSession ss f nm clock) m clock).messages) h1
        simpa [hb, hk, hg] using h3

theorem inv_processWebhook (env : Env) (tr : Nat → Option JsError)
    (att : List HistoryTurn → List GPart → Nat → Except JsError (List ModelPart))
    (ss : Sessions) (q : List QueueEntry) (clock : Nat) (inb : Inbound)
    (h : invB ss = true) :
    invB (processWebhook env tr att ss q clock inb).sessions = true := by
  unfold processWebhook
  cases mkIncoming clock inb with
  | none => simpa using h
  | some t => exact inv_webhookCore env tr att ss q clock t.1 (inboundName inb) t.2.1 t.2.2 h

theorem inv_sweepItem (env : Env) (tr : Nat → Option JsError)
    (att : List HistoryTurn → List GPart → Nat → Except JsError (List ModelPart))
    (ss : Sessions) (q : List QueueEntry) (clock : Nat) (item : QueueEntry)
    (h : invB ss = true) :
    invB (sweepItem env tr att ss q clock item).sessions = true := by
  unfold sweepItem
  cases getS ss item.toPhone with
  | none => simpa using h
  | some s =>
    by_cases hb : s.botActive = false
    · simpa [hb] using h
    · simp only [hb, if_neg]
      cases sendMessageWithRetry (att (sweepHistoryParts s.messages item.timestamp) item.parts) with
      | error e => simpa using h
      | ok parts => exact inv_respondStage _ tr _ _ ss q clock _ parts _ h

theorem inv_sweepLoop (env : Env) (tr : Nat → Option JsError)
    (attFor : QueueEntry → List HistoryTurn → List GPart → Nat → Except JsError (List ModelPart)) :
    ∀ (batch : List QueueEntry) (ss : Sessions) (q : List QueueEntry)
      (clock : Nat) (evs : List Ev), invB ss = true →
    invB (sweepLoop env tr attFor batch ss q clock evs).sessions = true := by
  intro batch
  induction batch with
  | nil => intro ss q clock evs h; simpa [sweepLoop] using h
  | cons item rest ih =>
    intro ss q clock evs h
    unfold sweepLoop
    exact ih _ _ _ _ (inv_sweepItem env tr (attFor item) ss q clock item h)

theorem inv_processSweep (env : Env) (tr : Nat → Option JsError)
    (attFor : QueueEntry → List HistoryTurn → List GPart → Nat → Except JsError (List ModelPart))
    (ss : Sessions) (q : List QueueEntry) (clock : Nat) (h : invB ss = true) :
    invB (processSweep env tr attFor ss q clock).sessions = true := by
  unfold processSweep
  by_cases hq : q = []
  · simpa [hq] using h
  · by_cases hk : env.apiKey = ""
    · simpa [hq, hk] using h
    · simpa [hq, hk] using inv_sweepLoop env tr attFor q ss [] clock [] h

theorem inv_toggleBot (ss : Sessions) (k : String) (active : Bool)
    (h : invB ss = true) : invB (toggleBot ss k active) = true := by
  unfold toggleBot
  cases getS ss k with
  | none => simpa using h
  | some s =>
    have hv : flagOkB { s with
        botActive := active,
        isEscalated := if active then false else s.isEscalated } = true := by
      cases active <;> simp [flagOkB]
    simpa using invB_putS hv h

theorem inv_deleteChat (ss : Sessions) (k : String) (h : invB ss = true) :
    invB (deleteChat ss k) = true :=
  all_filter_of_all h

theorem inv_setLastAnalyzed (ss : Sessions) (ks : List String) (now : Nat)
    (h : invB ss = true) : invB (setLastAnalyzed ss ks now) = true := by
  unfold setLastAnalyzed
  induction ks generalizing ss with
  | nil => simpa using h
  | cons k rest ih =>
    simp only [List.foldl_cons]
    apply ih
    cases hg : getS ss k with
    | none => simpa [hg] using h
    | some s =>
      have hv : flagOkB { s with lastAnalyzedTime := some now } = true := by
        have := invB_getS h hg
        simpa [flagOkB] using this
      simpa [hg] using invB_putS hv h

/-! ## Pipeline path lemmas -/

theorem botActive_baseSession (ss : Sessions) (k nm : String) (clock : Nat) :
    (baseSession ss k nm clock).botActive = preActive ss k := by
  unfold baseSession preActive
  cases getS ss k with
  | none => rfl
  | some s => by_cases hnm : nm = "" <;> simp [hnm]

theorem botActive_appendedSession (s : Session) (m : Message) (clock : Nat) :
    (appendedSession s m clock).botActive = s.botActive := rfl

theorem foldl_applyToolCall_snd (inv : List Product) :
    ∀ (fcs : List FunctionCall) (acc : List String × Bool),
    (fcs.foldl (applyToolCall inv) acc).2 =
      (acc.2 || fcs.any (fun fc => fc.name == "escalateToAdmin")) := by
  intro fcs
  induction fcs with
  | nil => intro acc; simp
  | cons fc rest ih =>
    intro acc
    simp only [List.foldl_cons, List.any_cons]
    rw [ih]
    have h1 : (applyToolCall inv acc fc).2 = (acc.2 || (fc.name == "escalateToAdmin")) := rfl
    rw [h1, Bool.or_assoc]

/-- shouldSilentLock after the loop is exactly: some call is an
escalateToAdmin. -/
theorem interpret_snd (inv : List Product) (fcs : List FunctionCall) :
    (interpretToolCalls inv fcs).2 =
      fcs.any (fun fc => fc.name == "escalateToAdmin") := by
  unfold interpretToolCalls
  rw [foldl_applyToolCall_snd]
  simp

/-- Decoding an inbound event and passing the lock, key and nonempty-parts
checks lands the webhook turn in the inference stage, with the inbound
message already recorded. -/
theorem processWebhook_infer (env : Env) (tr : Nat → Option JsError)
    (att : List HistoryTurn → List GPart → Nat → Except JsError (List ModelPart))
    (ss : Sessions) (q : List QueueEntry) (clock : Nat) (inb : Inbound)
    (f : String) (m : Message) (g : List GPart)
    (hmk : mkIncoming clock inb = some (f, m, g))
    (hact : preActive ss f = true)
    (hkey : env.apiKey ≠ "")
    (hg : g ≠ []) :
    processWebhook env tr att ss q clock inb =
      webhookInfer env tr att (afterInbound ss f (inboundName inb) clock m) q
        (clock + 1) f g
        (webhookHistoryParts
          (appendedSession (baseSession ss f (inboundName inb) clock) m clock).messages) := by
  unfold processWebhook
  rw [hmk]
  unfold webhookCore afterInbound
  have hb : ((appendedSession (baseSession ss f (inboundName inb) clock) m clock).botActive = false) = False := by
    rw [botActive_appendedSession, botActive_baseSession, hact]
    simp
  simp only [hb, if_false, if_neg hkey, if_neg hg]

/-- A successful inference whose output contains an escalateToAdmin call
locks the session (botActive false and isEscalated true in the same
update) and produces no events and no queue change. -/
theorem webhookInfer_lock (env : Env) (tr : Nat → Option JsError)
    (att : List HistoryTurn → List GPart → Nat → Except JsError (List ModelPart))
    (ss1 : Sessions) (q : List QueueEntry) (c1 : Nat) (f : String)
    (g : List GPart) (hist : List HistoryTurn) (parts : List ModelPart)
    (s1 : Session)
    (hok : sendMessageWithRetry (att hist g) = .ok parts)
    (hesc : (extractCalls parts).any (fun fc => fc.name == "escalateToAdmin") = true)
    (hs : getS ss1 f = some s1) :
    webhookInfer env tr att ss1 q c1 f g hist =
      ⟨putS f { s1 with botActive := false, isEscalated := true } ss1, q, [], c1⟩ := by
  unfold webhookInfer
  rw [hok]
  unfold respondStage
  have h2 : ((interpretToolCalls env.inventory (extractCalls parts)).2 = true) = True := by
    rw [interpret_snd, hesc]
    simp
  simp only [h2, if_true, hs]

theorem sendWhatsApp_ok {tok : String} {tr : Nat → Option JsError}
    (ss : Sessions) (clock sendIdx : Nat) (toPhone : String) (p : Payload)
    (adm : Bool) (htok : tok ≠ "") (htr : tr sendIdx = none) :
    sendWhatsApp tok tr ss clock sendIdx toPhone p adm =
      ⟨putS toPhone (sendUpdatedSession ss toPhone clock p adm) ss,
        clock + 1, sendIdx + 1, [Ev.sent toPhone p], none⟩ := by
  unfold sendWhatsApp
  simp only [if_neg htok, htr]

theorem sendWhatsApp_fail {tok : String} {tr : Nat → Option JsError}
    (ss : Sessions) (clock sendIdx : Nat) (toPhone : String) (p : Payload)
    (adm : Bool) (e : JsError) (htok : tok ≠ "") (htr : tr sendIdx = some e) :
    sendWhatsApp tok tr ss clock sendIdx toPhone p adm =
      ⟨putS toPhone (sendUpdatedSession ss toPhone clock p adm) ss,
        clock + 1, sendIdx + 1, [], some e⟩ := by
  unfold sendWhatsApp
  simp only [if_neg htok, htr]

/-- The append of lines 723-726 always extends the recipient history by
exactly the storage record of the sent payload. -/
theorem messagesOf_sendUpdate (ss : Sessions) (toPhone : String)
    (clock : Nat) (p : Payload) (adm : Bool) :
    messagesOf (putS toPhone (sendUpdatedSession ss toPhone clock p adm) ss) toPhone =
      messagesOf ss toPhone ++ [storageMsgOf clock p] := by
  rw [messagesOf, getS_putS_self]
  unfold sendUpdatedSession sendBaseSession messagesOf
  cases getS ss toPhone <;> simp [freshOutboundSession]

/-- Exact characterization of the image loop when the token is set and
every transport post succeeds: no error, clock and call index advance by
the image count, the trace is one post per image each followed by the
configured delay, and the recipient history is extended by exactly the
image records at consecutive clock ticks. -/
theorem sendImagesLoop_ok {tok : String} {tr : Nat → Option JsError}
    (toPhone pid : String) (d : Option Nat)
    (htok : tok ≠ "") (htr : ∀ k, tr k = none) :
    ∀ (n i : Nat) (ss : Sessions) (clock sendIdx : Nat),
    (sendImagesLoop tok tr toPhone pid d i n ss clock sendIdx).err = none ∧
    (sendImagesLoop tok tr toPhone pid d i n ss clock sendIdx).clock = clock + n ∧
    (sendImagesLoop tok tr toPhone pid d i n ss clock sendIdx).sendIdx = sendIdx + n ∧
    (sendImagesLoop tok tr toPhone pid d i n ss clock sendIdx).events =
      expectedImgEvents toPhone pid d i n ∧
    messagesOf (sendImagesLoop tok tr toPhone pid d i n ss clock sendIdx).sessions toPhone =
      messagesOf ss toPhone ++ expectedImgMsgs pid i n clock := by
  intro n
  induction n with
  | zero =>
    intro i ss clock sendIdx
    refine ⟨rfl, rfl, rfl, rfl, ?_⟩
    simp [sendImagesLoop, expectedImgMsgs]
  | succ n ih =>
    intro i ss clock sendIdx
    have hsend := sendWhatsApp_ok ss clock sendIdx toPhone
      (Payload.image (imageLink pid i) "") false htok (htr sendIdx)
    obtain ⟨ih1, ih2, ih3, ih4, ih5⟩ := ih (i + 1)
      (putS toPhone (sendUpdatedSession ss toPhone clock
        (Payload.image (imageLink pid i) "") false) ss) (clock + 1) (sendIdx + 1)
    unfold sendImagesLoop
    rw [hsend]
    simp only
    refine ⟨ih1, ?_, ?_, ?_, ?_⟩
    · rw [ih2]; omega
    · rw [ih3]; omega
    · rw [ih4]
      cases d <;> simp [expectedImgEvents]
    · rw [ih5, messagesOf_sendUpdate]
      simp [expectedImgMsgs]

theorem webhookInfer_ok (env : Env) (tr : Nat → Option JsError)
    (att : List HistoryTurn → List GPart → Nat → Except JsError (List ModelPart))
    (ss1 : Sessions) (q : List QueueEntry) (c1 : Nat) (f : String)
    (g : List GPart) (hist : List HistoryTurn) (parts : List ModelPart)
    (hok : sendMessageWithRetry (att hist g) = .ok parts) :
    webhookInfer env tr att ss1 q c1 f g hist =
      respondStage env.accessToken tr env.inventory (some 800) ss1 q c1 f parts
        (fun e c => enqIf q f g e c) := by
  unfold webhookInfer
  rw [hok]

theorem webhookInfer_err (env : Env) (tr : Nat → Option JsError)
    (att : List HistoryTurn → List GPart → Nat → Except JsError (List ModelPart))
    (ss1 : Sessions) (q : List QueueEntry) (c1 : Nat) (f : String)
    (g : List GPart) (hist : List HistoryTurn) (e : JsError)
    (herr : sendMessageWithRetry (att hist g) = .error e) :
    webhookInfer env tr att ss1 q c1 f g hist = ⟨ss1, enqIf q f g e c1, [], c1⟩ := by
  unfold webhookInfer
  rw [herr]

theorem respondStage_nolock (tok : String) (tr : Nat → Option JsError)
    (inv : List Product) (d : Option Nat) (ss : Sessions)
    (q : List QueueEntry) (clock : Nat) (toPhone : String)
    (parts : List ModelPart) (qErr : JsError → Nat → List QueueEntry)
    (hnoesc : (extractCalls parts).any (fun fc => fc.name == "escalateToAdmin") = false) :
    respondStage tok tr inv d ss q clock toPhone parts qErr =
      dispatchStage tok tr inv d ss clock toPhone
        (interpretToolCalls inv (extractCalls parts)).1 (extractText parts) q qErr := by
  unfold respondStage
  have h2 : ((interpretToolCalls inv (extractCalls parts)).2 = true) = False := by
    rw [interpret_snd, hnoesc]
    simp
  simp only [h2, if_false]

/-- The dispatch tail with no staged images and a transport-failing text
send: the text is appended to the history but nothing is posted, and the
enclosing catch decides the queue. -/
theorem dispatchStage_textfail (tok : String) (tr : Nat → Option JsError)
    (inv : List Product) (d : Option Nat) (ss : Sessions) (clock : Nat)
    (toPhone txt : String) (q : List QueueEntry)
    (qErr : JsError → Nat → List QueueEntry) (e : JsError)
    (htok : tok ≠ "") (htxt : txt ≠ "") (htr0 : tr 0 = some e) :
    dispatchStage tok tr inv d ss clock toPhone [] txt q qErr =
      ⟨putS toPhone (sendUpdatedSession ss toPhone clock
          (Payload.text (formatResponseText txt)) false) ss,
        qErr e (clock + 1), [], clock + 1⟩ := by
  unfold dispatchStage imagesStage dispatchFinish
  simp only [if_neg htxt]
  rw [sendWhatsApp_fail ss clock 0 toPhone
    (Payload.text (formatResponseText txt)) false e htok htr0]
  simp

/-- The dispatch tail with no staged images and a succeeding text send. -/
theorem dispatchStage_textok (tok : String) (tr : Nat → Option JsError)
    (inv : List Product) (d : Option Nat) (ss : Sessions) (clock : Nat)
    (toPhone txt : String) (q : List QueueEntry)
    (qErr : JsError → Nat → List QueueEntry)
    (htok : tok ≠ "") (htxt : txt ≠ "") (htr0 : tr 0 = none) :
    dispatchStage tok tr inv d ss clock toPhone [] txt q qErr =
      ⟨putS toPhone (sendUpdatedSession ss toPhone clock
          (Payload.text (formatResponseText txt)) false) ss,
        q, [Ev.sent toPhone (Payload.text (formatResponseText txt))], clock + 1⟩ := by
  unfold dispatchStage imagesStage dispatchFinish
  simp only [if_neg htxt]
  rw [sendWhatsApp_ok ss clock 0 toPhone
    (Payload.text (formatResponseText txt)) false htok htr0]
  simp

/-- Exact characterization of the dispatch tail for a turn staging both
images and text, when the token is set and every transport post
succeeds. -/
theorem dispatchStage_imgs_text (tok : String) (tr : Nat → Option JsError)
    (inv : List Product) (d : Option Nat) (ss : Sessions) (clock : Nat)
    (toPhone txt : String) (q : List QueueEntry)
    (qErr : JsError → Nat → List QueueEntry) (img0 : String)
    (rest : List String) (prod : Product)
    (htok : tok ≠ "") (htr : ∀ k, tr k = none) (htxt : txt ≠ "")
    (hfind : inv.find? (fun p => p.images.contains img0) = some prod) :
    (dispatchStage tok tr inv d ss clock toPhone (img0 :: rest) txt q qErr).queue = q ∧
    (dispatchStage tok tr inv d ss clock toPhone (img0 :: rest) txt q qErr).clock =
      clock + (img0 :: rest).length + 1 ∧
    (dispatchStage tok tr inv d ss clock toPhone (img0 :: rest) txt q qErr).events =
      expectedImgEvents toPhone prod.id d 0 (img0 :: rest).length ++
        [Ev.sent toPhone (Payload.text (formatResponseText txt))] ∧
    messagesOf (dispatchStage tok tr inv d ss clock toPhone (img0 :: rest) txt q qErr).sessions toPhone =
      messagesOf ss toPhone ++
        (expectedImgMsgs prod.id 0 (img0 :: rest).length clock ++
          [storageMsgOf (clock + (img0 :: rest).length)
            (Payload.text (formatResponseText txt))]) := by
  have key : dispatchStage tok tr inv d ss clock toPhone (img0 :: rest) txt q qErr =
      dispatchFinish tok tr toPhone txt q qErr
        (sendImagesLoop tok tr toPhone prod.id d 0 (img0 :: rest).length ss clock 0) := by
    unfold dispatchStage imagesStage
    show dispatchFinish tok tr toPhone txt q qErr
        (match List.find? (fun p => p.images.contains img0) inv with
         | none => ⟨ss, clock, 0, [], some typeErrorJs⟩
         | some p => sendImagesLoop tok tr toPhone p.id d 0 (img0 :: rest).length ss clock 0) = _
    rw [hfind]
  obtain ⟨l1, l2, l3, l4, l5⟩ := sendImagesLoop_ok toPhone prod.id d htok htr
    (img0 :: rest).length 0 ss clock 0
  have hsend := sendWhatsApp_ok
    (sendImagesLoop tok tr toPhone prod.id d 0 (img0 :: rest).length ss clock 0).sessions
    (sendImagesLoop tok tr toPhone prod.id d 0 (img0 :: rest).length ss clock 0).clock
    (sendImagesLoop tok tr toPhone prod.id d 0 (img0 :: rest).length ss clock 0).sendIdx
    toPhone (Payload.text (formatResponseText txt)) false htok (htr _)
  have key2 : dispatchFinish tok tr toPhone txt q qErr
      (sendImagesLoop tok tr toPhone prod.id d 0 (img0 :: rest).length ss clock 0) =
      ⟨putS toPhone (sendUpdatedSession
          (sendImagesLoop tok tr toPhone prod.id d 0 (img0 :: rest).length ss clock 0).sessions
          toPhone
          (sendImagesLoop tok tr toPhone prod.id d 0 (img0 :: rest).length ss clock 0).clock
          (Payload.text (formatResponseText txt)) false)
        (sendImagesLoop tok tr toPhone prod.id d 0 (img0 :: rest).length ss clock 0).sessions,
        q,
        (sendImagesLoop tok tr toPhone prod.id d 0 (img0 :: rest).length ss clock 0).events ++
          [Ev.sent toPhone (Payload.text (formatResponseText txt))],
        (sendImagesLoop tok tr toPhone prod.id d 0 (img0 :: rest).length ss clock 0).clock + 1⟩ := by
    unfold dispatchFinish
    rw [l1]
    simp only [if_neg htxt]
    rw [hsend]
  rw [key, key2]
  refine ⟨rfl, ?_, ?_, ?_⟩
  · simp only [l2]
  · simp only [l4]
  · rw [messagesOf_sendUpdate, l5, l2]
    simp [List.append_assoc]

/-- The message run an images-then-text dispatch appends is image records
followed by one text record. -/
theorem imagesThenText_expected (pid txt : String) :
    ∀ (n i c c2 : Nat),
    imagesThenText (expectedImgMsgs pid i n c ++
      [storageMsgOf c2 (Payload.text txt)]) = true := by
  intro n
  induction n with
  | zero =>
    intro i c c2
    simp [expectedImgMsgs, imagesThenText, storageMsgOf]
  | succ n ih =>
    intro i c c2
    cases n with
    | zero => simp [expectedImgMsgs, imagesThenText, storageMsgOf]
    | succ n2 =>
      have h := ih (i + 1) (c + 1) c2
      simp only [expectedImgMsgs, List.cons_append] at *
      simp only [imagesThenText] at *
      simpa [storageMsgOf] using h

/-- The message run an images-then-text dispatch appends carries
non-decreasing timestamps whenever the text record is stamped at or after
the end of the image run. -/
theorem nondec_expected (pid txt : String) :
    ∀ (n i c c2 : Nat), c + n ≤ c2 →
    nondecTs (expectedImgMsgs pid i n c ++
      [storageMsgOf c2 (Payload.text txt)]) = true := by
  intro n
  induction n with
  | zero =>
    intro i c c2 _
    simp [expectedImgMsgs, nondecTs]
  | succ n ih =>
    intro i c c2 hle
    cases n with
    | zero =>
      have h1 : c ≤ c2 := by omega
      simp [expectedImgMsgs, nondecTs, storageMsgOf, h1]
    | succ n2 =>
      have h := ih (i + 1) (c + 1) c2 (by omega)
      simp only [expectedImgMsgs, List.cons_append] at *
      simp only [nondecTs] at *
      simpa [storageMsgOf] using h

/-- In the webhook dispatch trace (delay 800 after every image post),
every image post is immediately followed by a nonzero delay. -/
theorem imageDelayedOk_expected (toPhone pid txt : String) (d : Nat)
    (hd : 0 < d) : ∀ (n i : Nat),
    imageDelayedOk (expectedImgEvents toPhone pid (some d) i n ++
      [Ev.sent toPhone (Payload.text txt)]) = true := by
  intro n
  induction n with
  | zero =>
    intro i
    simp [expectedImgEvents, imageDelayedOk]
  | succ n ih =>
    intro i
    simp only [expectedImgEvents, List.cons_append, List.append_assoc]
    simp only [imageDelayedOk, List.singleton_append, List.nil_append]
    rw [ih (i + 1)]
    simp [hd]

/-- The sweep dispatch trace (no delay configured) awaits no delay at
all. -/
theorem noDelay_expected (toPhone pid txt : String) :
    ∀ (n i : Nat),
    ((expectedImgEvents toPhone pid none i n ++
      [Ev.sent toPhone (Payload.text txt)]).any isDelayedEv) = false := by
  intro n
  induction n with
  | zero =>
    intro i
    simp [expectedImgEvents, isDelayedEv]
  | succ n ih =>
    intro i
    simp only [expectedImgEvents, List.nil_append, List.cons_append, List.any_cons]
    rw [ih (i + 1)]
    simp [isDelayedEv]

/-- A live sweep item with a successful inference call lands in the
shared response stage with the sweep catch installed. -/
theorem sweepItem_respond (env : Env) (tr : Nat → Option JsError)
    (att : List HistoryTurn → List GPart → Nat → Except JsError (List ModelPart))
    (ss : Sessions) (q : List QueueEntry) (clock : Nat) (item : QueueEntry)
    (s : Session) (parts : List ModelPart)
    (hs : getS ss item.toPhone = some s) (hb : s.botActive = true)
    (hok : sendMessageWithRetry
      (att (sweepHistoryParts s.messages item.timestamp) item.parts) = .ok parts) :
    sweepItem env tr att ss q clock item =
      respondStage env.accessToken tr env.inventory none ss q clock
        item.toPhone parts
        (fun e _ => if shouldEnqueue e then q ++ [item] else q) := by
  unfold sweepItem
  simp only [hs, hb]
  rw [hok]
  simp

/-! ## Claim theorems -/

/-- C1: for every webhook inference turn whose model output contains at
least one escalateToAdmin tool call, the pipeline dispatches zero
outbound messages for that turn (no events at all — no images and no
text, even if the model also returned free text or a resolvable
displayProduct call), leaves the retry queue untouched, and the sender
session transitions to botActive = false and isEscalated = true in that
same step. -/
theorem c1_silent_escalation (env : Env) (tr : Nat → Option JsError)
    (att : List HistoryTurn → List GPart → Nat → Except JsError (List ModelPart))
    (ss : Sessions) (q : List QueueEntry) (clock : Nat) (inb : Inbound)
    (f : String) (m : Message) (g : List GPart) (parts : List ModelPart)
    (hmk : mkIncoming clock inb = some (f, m, g))
    (hact : preActive ss f = true)
    (hkey : env.apiKey ≠ "")
    (hg : g ≠ [])
    (hok : sendMessageWithRetry (att (webhookHistoryParts
      (appendedSession (baseSession ss f (inboundName inb) clock) m clock).messages) g) =
      .ok parts)
    (hesc : (extractCalls parts).any (fun fc => fc.name == "escalateToAdmin") = true) :
    processWebhook env tr att ss q clock inb =
      ⟨putS f { appendedSession (baseSession ss f (inboundName inb) clock) m clock with
          botActive := false, isEscalated := true }
        (afterInbound ss f (inboundName inb) clock m), q, [], clock + 1⟩ := by
  rw [processWebhook_infer env tr att ss q clock inb f m g hmk hact hkey hg]
  exact webhookInfer_lock env tr att (afterInbound ss f (inboundName inb) clock m) q
    (clock + 1) f g
    (webhookHistoryParts (appendedSession (baseSession ss f (inboundName inb) clock) m clock).messages)
    parts (appendedSession (baseSession ss f (inboundName inb) clock) m clock) hok hesc
    (by unfold afterInbound; exact getS_putS_self _ _ _)

theorem c1_silent_escalation_witness :
    processWebhook ⟨"TOK", "KEY", [⟨"P1", ["a"]⟩]⟩ (fun _ => none)
      (fun _ _ _ => Except.ok [⟨some "Connecting you now", none⟩,
        ⟨none, some ⟨"displayProduct", "P1", ""⟩⟩,
        ⟨none, some ⟨"escalateToAdmin", "", "ready to pay"⟩⟩])
      [] [] 0 (Inbound.text "p1" "m1" "" "send till number") =
      ⟨putS "p1" { appendedSession (baseSession [] "p1" "" 0)
          ⟨"m1", "user", 0, "text", "send till number", none⟩ 0 with
          botActive := false, isEscalated := true }
        (afterInbound [] "p1" "" 0 ⟨"m1", "user", 0, "text", "send till number", none⟩),
        [], [], 1⟩ :=
  c1_silent_escalation ⟨"TOK", "KEY", [⟨"P1", ["a"]⟩]⟩ (fun _ => none)
    (fun _ _ _ => Except.ok [⟨some "Connecting you now", none⟩,
      ⟨none, some ⟨"displayProduct", "P1", ""⟩⟩,
      ⟨none, some ⟨"escalateToAdmin", "", "ready to pay"⟩⟩])
    [] [] 0 (Inbound.text "p1" "m1" "" "send till number")
    "p1" ⟨"m1", "user", 0, "text", "send till number", none⟩
    [GPart.text "send till number"]
    [⟨some "Connecting you now", none⟩,
      ⟨none, some ⟨"displayProduct", "P1", ""⟩⟩,
      ⟨none, some ⟨"escalateToAdmin", "", "ready to pay"⟩⟩]
    rfl rfl (by decide) (by decide) rfl (by decide)

/-- C2: isEscalated = true implies botActive = false on every reachable
session map, preserved by every modelled operation (bot toggle,
sendWhatsApp and its admin callers, the webhook turn, the sweep item and
the full sweep, chat deletion, the analyzer watermark update); the bot
toggle with active = true — the only release — clears isEscalated in the
same action, and the escalation path of a successful inference sets
botActive = false and isEscalated = true in one session update. -/
theorem c2_lock_invariant :
    (∀ (ss : Sessions) (k : String) (a : Bool), invB ss = true →
      invB (toggleBot ss k a) = true)
    ∧ (∀ (ss : Sessions) (k : String) (s : Session), getS ss k = some s →
      getS (toggleBot ss k true) k =
        some { s with botActive := true, isEscalated := false })
    ∧ (∀ (tok : String) (tr : Nat → Option JsError) (ss : Sessions)
        (clock sendIdx : Nat) (toPhone : String) (p : Payload) (adm : Bool),
        invB ss = true →
        invB (sendWhatsApp tok tr ss clock sendIdx toPhone p adm).sessions = true)
    ∧ (∀ (env : Env) (tr : Nat → Option JsError)
        (att : List HistoryTurn → List GPart → Nat → Except JsError (List ModelPart))
        (ss : Sessions) (q : List QueueEntry) (clock : Nat) (inb : Inbound),
        invB ss = true →
        invB (processWebhook env tr att ss q clock inb).sessions = true)
    ∧ (∀ (env : Env) (tr : Nat → Option JsError)
        (att : List HistoryTurn → List GPart → Nat → Except JsError (List ModelPart))
        (ss : Sessions) (q : List QueueEntry) (clock : Nat) (item : QueueEntry),
        invB ss = true →
        invB (sweepItem env tr att ss q clock item).sessions = true)
    ∧ (∀ (env : Env) (tr : Nat → Option JsError)
        (attFor : QueueEntry → List HistoryTurn → List GPart → Nat → Except JsError (List ModelPart))
        (ss : Sessions) (q : List QueueEntry) (clock : Nat),
        invB ss = true →
        invB (processSweep env tr attFor ss q clock).sessions = true)
    ∧ (∀ (ss : Sessions) (k : String), invB ss = true →
        invB (deleteChat ss k) = true)
    ∧ (∀ (ss : Sessions) (ks : List String) (now : Nat), invB ss = true →
        invB (setLastAnalyzed ss ks now) = true)
    ∧ (∀ (env : Env) (tr : Nat → Option JsError)
        (att : List HistoryTurn → List GPart → Nat → Except JsError (List ModelPart))
        (ss1 : Sessions) (q : List QueueEntry) (c1 : Nat) (f : String)
        (g : List GPart) (hist : List HistoryTurn) (parts : List ModelPart)
        (s1 : Session),
        sendMessageWithRetry (att hist g) = .ok parts →
        (extractCalls parts).any (fun fc => fc.name == "escalateToAdmin") = true →
        getS ss1 f = some s1 →
        webhookInfer env tr att ss1 q c1 f g hist =
          ⟨putS f { s1 with botActive := false, isEscalated := true } ss1, q, [], c1⟩) := by
  refine ⟨inv_toggleBot, ?_, inv_sendWhatsApp, inv_processWebhook, inv_sweepItem,
    inv_processSweep, inv_deleteChat, inv_setLastAnalyzed, ?_⟩
  · intro ss k s hs
    unfold toggleBot
    simp only [hs]
    rw [getS_putS_self]
    simp
  · intro env tr att ss1 q c1 f g hist parts s1 hok hesc hs
    exact webhookInfer_lock env tr att ss1 q c1 f g hist parts s1 hok hesc hs

theorem c2_lock_invariant_witness :
    invB (toggleBot [("p1", ⟨"p1", "c", [], "", 0, 0, false, true, none⟩)] "p1" false) = true
    ∧ getS (toggleBot [("p1", ⟨"p1", "c", [], "", 0, 0, false, true, none⟩)] "p1" true) "p1" =
      some { (⟨"p1", "c", [], "", 0, 0, false, true, none⟩ : Session) with
        botActive := true, isEscalated := false } :=
  ⟨c2_lock_invariant.1 [("p1", ⟨"p1", "c", [], "", 0, 0, false, true, none⟩)] "p1" false (by decide),
    c2_lock_invariant.2.1 [("p1", ⟨"p1", "c", [], "", 0, 0, false, true, none⟩)] "p1"
      ⟨"p1", "c", [], "", 0, 0, false, true, none⟩ rfl⟩

/-- C7: a queued entry whose target session no longer exists or has
botActive = false at sweep time is discarded: the session map, queue and
clock are unchanged, no event is produced, and the result does not depend
on the inference oracle (which is universally quantified — no inference
call is made). -/
theorem c7_sweep_discard_on_lock (env : Env) (tr : Nat → Option JsError)
    (att : List HistoryTurn → List GPart → Nat → Except JsError (List ModelPart))
    (ss : Sessions) (q : List QueueEntry) (clock : Nat) (item : QueueEntry)
    (h : sweepDiscard ss item = true) :
    sweepItem env tr att ss q clock item = ⟨ss, q, [], clock⟩ := by
  unfold sweepItem
  unfold sweepDiscard at h
  cases hg : getS ss item.toPhone with
  | none => rfl
  | some s =>
    rw [hg] at h
    have hb : s.botActive = false := by simpa using h
    simp [hb]

theorem c7_sweep_discard_on_lock_witness :
    sweepItem ⟨"TOK", "KEY", []⟩ (fun _ => none) (fun _ _ _ => Except.ok [])
      [("p1", ⟨"p1", "c", [], "", 0, 0, false, true, none⟩)] [⟨"q1", [], 0⟩] 5
      ⟨"p1", [GPart.text "x"], 3⟩ =
      ⟨[("p1", ⟨"p1", "c", [], "", 0, 0, false, true, none⟩)], [⟨"q1", [], 0⟩], [], 5⟩ :=
  c7_sweep_discard_on_lock ⟨"TOK", "KEY", []⟩ (fun _ => none) (fun _ _ _ => Except.ok [])
    [("p1", ⟨"p1", "c", [], "", 0, 0, false, true, none⟩)] [⟨"q1", [], 0⟩] 5
    ⟨"p1", [GPart.text "x"], 3⟩ (by decide)

/-- C10: with no transport access token configured, sendWhatsApp returns
immediately — no transport contact, no error, and nothing appended to any
session history — so every outbound bot or admin message is silently
dropped; in particular the webhook turn with both credentials missing
records the inbound message but produces no events, no queue change and
no trace of the missing-AI-configuration notice. -/
theorem c10_missing_token_drops :
    (∀ (tr : Nat → Option JsError) (ss : Sessions) (clock sendIdx : Nat)
      (toPhone : String) (p : Payload) (adm : Bool),
      sendWhatsApp "" tr ss clock sendIdx toPhone p adm = ⟨ss, clock, sendIdx, [], none⟩)
    ∧ (∀ (env : Env) (tr : Nat → Option JsError)
        (att : List HistoryTurn → List GPart → Nat → Except JsError (List ModelPart))
        (ss : Sessions) (q : List QueueEntry) (clock : Nat) (inb : Inbound)
        (f : String) (m : Message) (g : List GPart),
        env.accessToken = "" → env.apiKey = "" →
        mkIncoming clock inb = some (f, m, g) → preActive ss f = true →
        processWebhook env tr att ss q clock inb =
          ⟨afterInbound ss f (inboundName inb) clock m, q, [], clock + 1⟩) := by
  constructor
  · intro tr ss clock sendIdx toPhone p adm
    unfold sendWhatsApp
    simp
  · intro env tr att ss q clock inb f m g hacc hkey hmk hact
    unfold processWebhook
    rw [hmk]
    unfold webhookCore afterInbound
    have hb : ((appendedSession (baseSession ss f (inboundName inb) clock) m clock).botActive = false) = False := by
      rw [botActive_appendedSession, botActive_baseSession, hact]
      simp
    simp only [hb, if_false, hkey, if_pos, hacc]
    unfold sendWhatsApp
    simp

/-- C3 counterexample: inference succeeds (content decided), the single
outbound transport post fails with HTTP 503, yet a retry-queue entry IS
enqueued — the webhook catch wraps the dispatch calls and classifies the
dispatch error for enqueueing, refuting the claim that a dispatch failure
never causes a retry-queue entry. -/
theorem c3_dispatch_failure_enqueued :
    (processWebhook ⟨"TOK", "KEY", []⟩
      (fun _ => some ⟨some 503, none, "Service Unavailable", some 503, none⟩)
      (fun _ _ _ => Except.ok [⟨some "Hello!", none⟩])
      [] [] 0 (Inbound.text "p1" "m1" "" "Hi")).queue =
      [⟨"p1", [GPart.text "Hi"], 2⟩]
    ∧ sentEvents (processWebhook ⟨"TOK", "KEY", []⟩
      (fun _ => some ⟨some 503, none, "Service Unavailable", some 503, none⟩)
      (fun _ _ _ => Except.ok [⟨some "Hello!", none⟩])
      [] [] 0 (Inbound.text "p1" "m1" "" "Hi")).events = [] := by decide

/-- C3 amended: once inference has succeeded, a failing outbound text
send still goes through the enclosing catch: an entry holding the
original active-turn parts is enqueued exactly when the dispatch error is
transient-classified (status 503, code ETIMEDOUT, or no status field);
only dispatch errors carrying some other definite status are dropped
without an enqueue.  In every case nothing further is posted, and the
undelivered text is already recorded in the session. -/
theorem c3_dispatch_enqueue_classification (env : Env) (tr : Nat → Option JsError)
    (att : List HistoryTurn → List GPart → Nat → Except JsError (List ModelPart))
    (ss : Sessions) (q : List QueueEntry) (clock : Nat) (inb : Inbound)
    (f : String) (m : Message) (g : List GPart) (parts : List ModelPart)
    (e : JsError)
    (hmk : mkIncoming clock inb = some (f, m, g))
    (hact : preActive ss f = true)
    (hkey : env.apiKey ≠ "")
    (hg : g ≠ [])
    (hok : sendMessageWithRetry (att (webhookHistoryParts
      (appendedSession (baseSession ss f (inboundName inb) clock) m clock).messages) g) =
      .ok parts)
    (hnoesc : (extractCalls parts).any (fun fc => fc.name == "escalateToAdmin") = false)
    (hnoimg : (interpretToolCalls env.inventory (extractCalls parts)).1 = [])
    (htxt : extractText parts ≠ "")
    (htok : env.accessToken ≠ "")
    (htr0 : tr 0 = some e) :
    processWebhook env tr att ss q clock inb =
      ⟨putS f (sendUpdatedSession (afterInbound ss f (inboundName inb) clock m) f (clock + 1)
          (Payload.text (formatResponseText (extractText parts))) false)
        (afterInbound ss f (inboundName inb) clock m),
        enqIf q f g e (clock + 2), [], clock + 2⟩ := by
  rw [processWebhook_infer env tr att ss q clock inb f m g hmk hact hkey hg]
  rw [webhookInfer_ok env tr att (afterInbound ss f (inboundName inb) clock m) q
    (clock + 1) f g _ parts hok]
  rw [respondStage_nolock env.accessToken tr env.inventory (some 800)
    (afterInbound ss f (inboundName inb) clock m) q (clock + 1) f parts _ hnoesc]
  rw [hnoimg]
  rw [dispatchStage_textfail env.accessToken tr env.inventory (some 800)
    (afterInbound ss f (inboundName inb) clock m) (clock + 1) f
    (extractText parts) q _ e htok htxt htr0]

theorem c3_dispatch_enqueue_classification_witness :
    shouldEnqueue ⟨some 400, none, "Bad Request", some 400, none⟩ = false
    ∧ (processWebhook ⟨"TOK", "KEY", []⟩
      (fun _ => some ⟨some 400, none, "Bad Request", some 400, none⟩)
      (fun _ _ _ => Except.ok [⟨some "Hello!", none⟩])
      [] [] 0 (Inbound.text "p1" "m1" "" "Hi")).queue = [] :=
  ⟨by decide, by
    have h := c3_dispatch_enqueue_classification ⟨"TOK", "KEY", []⟩
      (fun _ => some ⟨some 400, none, "Bad Request", some 400, none⟩)
      (fun _ _ _ => Except.ok [⟨some "Hello!", none⟩])
      [] [] 0 (Inbound.text "p1" "m1" "" "Hi")
      "p1" ⟨"m1", "user", 0, "text", "Hi", none⟩ [GPart.text "Hi"]
      [⟨some "Hello!", none⟩] ⟨some 400, none, "Bad Request", some 400, none⟩
      rfl rfl (by decide) (by decide) rfl (by decide) rfl (by decide) (by decide) rfl
    rw [h]
    decide⟩

/-- C4 counterexample: an inference request whose every attempt fails
with an error carrying HTTP status 429 is retried (the error is
transient-classified for retry) but, once retries are exhausted, it is
NOT enqueued: the catch only enqueues on status 503, code ETIMEDOUT or a
missing status — refuting the claim that an always-429 request is
enqueued. -/
theorem c4_rate_limit_not_enqueued :
    isTransientForRetry ⟨some 429, none, "Too Many Requests", none, none⟩ = true
    ∧ (processWebhook ⟨"TOK", "KEY", []⟩ (fun _ => none)
      (fun _ _ _ => Except.error ⟨some 429, none, "Too Many Requests", none, none⟩)
      [] [] 0 (Inbound.text "p1" "m1" "" "Hi")).queue = []
    ∧ (processWebhook ⟨"TOK", "KEY", []⟩ (fun _ => none)
      (fun _ _ _ => Except.error ⟨some 429, none, "Too Many Requests", none, none⟩)
      [] [] 0 (Inbound.text "p1" "m1" "" "Hi")).events = [] := by decide

/-- C4 amended: when the inference call surfaces an error after the
retry helper gives up, the webhook turn enqueues a retry entry holding
the active-turn parts exactly when the surfaced error is
transient-classified by the catch (status 503, code ETIMEDOUT, or no
status field); an error carrying status 429 is retried inside the
gateway but not enqueued.  Only the inbound append survives: no events,
no other session change. -/
theorem c4_enqueue_classification (env : Env) (tr : Nat → Option JsError)
    (att : List HistoryTurn → List GPart → Nat → Except JsError (List ModelPart))
    (ss : Sessions) (q : List QueueEntry) (clock : Nat) (inb : Inbound)
    (f : String) (m : Message) (g : List GPart) (e : JsError)
    (hmk : mkIncoming clock inb = some (f, m, g))
    (hact : preActive ss f = true)
    (hkey : env.apiKey ≠ "")
    (hg : g ≠ [])
    (herr : sendMessageWithRetry (att (webhookHistoryParts
      (appendedSession (baseSession ss f (inboundName inb) clock) m clock).messages) g) =
      .error e) :
    processWebhook env tr att ss q clock inb =
      ⟨afterInbound ss f (inboundName inb) clock m,
        enqIf q f g e (clock + 1), [], clock + 1⟩ := by
  rw [processWebhook_infer env tr att ss q clock inb f m g hmk hact hkey hg]
  exact webhookInfer_err env tr att (afterInbound ss f (inboundName inb) clock m) q
    (clock + 1) f g _ e herr

theorem c4_enqueue_classification_witness :
    shouldEnqueue ⟨none, none, "socket hang up", none, none⟩ = true
    ∧ (processWebhook ⟨"TOK", "KEY", []⟩ (fun _ => none)
      (fun _ _ _ => Except.error ⟨none, none, "socket hang up", none, none⟩)
      [] [] 0 (Inbound.text "p1" "m1" "" "Hi")).queue =
      [⟨"p1", [GPart.text "Hi"], 1⟩] :=
  ⟨by decide, by
    have h := c4_enqueue_classification ⟨"TOK", "KEY", []⟩ (fun _ => none)
      (fun _ _ _ => Except.error ⟨none, none, "socket hang up", none, none⟩)
      [] [] 0 (Inbound.text "p1" "m1" "" "Hi")
      "p1" ⟨"m1", "user", 0, "text", "Hi", none⟩ [GPart.text "Hi"]
      ⟨none, none, "socket hang up", none, none⟩
      rfl rfl (by decide) (by decide) (by rfl)
    rw [h]
    decide⟩

/-- C5 counterexample: with 31 session messages all timestamped strictly
before the entry time, the rebuilt sweep context holds only 30 turns —
the slice(-30) bound truncates — so the context is not exactly the set of
messages before the enqueue time. -/
theorem c5_history_truncated :
    (sweepHistoryParts ((List.range 31).map
      (fun i => ⟨toString i, "user", i, "text", "m", none⟩)) 100).length = 30
    ∧ (((List.range 31).map
      (fun i => (⟨toString i, "user", i, "text", "m", none⟩ : Message))).filter
        (fun m => decide (m.timestamp < 100))).length = 31 := by decide

/-- C5 amended: every turn of the rebuilt sweep context comes from a
session message timestamped strictly before the entry's enqueue time (so
no message that arrived after the failure is replayed), and whenever at
most 30 such messages exist the context is exactly their image, in
order; with more, only the last 30 are kept. -/
theorem c5_sweep_history_bound (msgs : List Message) (ts : Nat) :
    (∀ t ∈ sweepHistoryParts msgs ts,
      ∃ m, m ∈ msgs ∧ m.timestamp < ts ∧ t = sweepTurnOf m)
    ∧ ((msgs.filter (fun m => decide (m.timestamp < ts))).length ≤ 30 →
      sweepHistoryParts msgs ts =
        (msgs.filter (fun m => decide (m.timestamp < ts))).map sweepTurnOf) := by
  constructor
  · intro t ht
    unfold sweepHistoryParts sliceLast at ht
    rw [List.mem_map] at ht
    obtain ⟨m, hm, rfl⟩ := ht
    have hm2 : m ∈ msgs.filter (fun m => decide (m.timestamp < ts)) :=
      List.mem_of_mem_drop hm
    rw [List.mem_filter] at hm2
    exact ⟨m, hm2.1, by simpa using hm2.2, rfl⟩
  · intro hle
    unfold sweepHistoryParts sliceLast
    rw [Nat.sub_eq_zero_of_le hle, List.drop_zero]

theorem c5_sweep_history_bound_witness :
    ((([⟨"a", "user", 0, "text", "hi", none⟩,
        ⟨"b", "bot", 5, "text", "yo", none⟩] : List Message).filter
      (fun m => decide (m.timestamp < 3))).length ≤ 30)
    ∧ sweepHistoryParts
        [⟨"a", "user", 0, "text", "hi", none⟩, ⟨"b", "bot", 5, "text", "yo", none⟩] 3 =
      (([⟨"a", "user", 0, "text", "hi", none⟩,
        ⟨"b", "bot", 5, "text", "yo", none⟩] : List Message).filter
        (fun m => decide (m.timestamp < 3))).map sweepTurnOf :=
  ⟨by decide,
    (c5_sweep_history_bound
      [⟨"a", "user", 0, "text", "hi", none⟩, ⟨"b", "bot", 5, "text", "yo", none⟩] 3).2
      (by decide)⟩

/-- C6: both context builders emit history turns that carry no inline
binary data — an image message in history appears only as a text
placeholder — while the newest inbound message's downloaded image is
supplied as inline binary data in the geminiParts of the active turn,
alongside its caption (or the fixed Analyze prompt), not in history. -/
theorem c6_history_placeholders :
    (∀ (msgs : List Message), (webhookHistoryParts msgs).all turnTextOnly = true)
    ∧ (∀ (msgs : List Message) (ts : Nat),
      (sweepHistoryParts msgs ts).all turnTextOnly = true)
    ∧ (∀ (fromPhone mid nm cap : String) (med : Media) (clock : Nat),
      mkIncoming clock (Inbound.image fromPhone mid nm cap (some med)) =
        some (fromPhone,
          ⟨mid, "user", clock, "image", (if cap = "" then "Photo" else cap),
            some (dataUrl med)⟩,
          [GPart.inlineData med.mimeType med.data,
            GPart.text (if cap = "" then "Analyze this image." else cap)])) := by
  have hmap : ∀ (f : Message → HistoryTurn), (∀ a, turnTextOnly (f a) = true) →
      ∀ (l : List Message), (l.map f).all turnTextOnly = true := by
    intro f hf l
    induction l with
    | nil => rfl
    | cons a l ih => simp [hf, ih]
  refine ⟨?_, ?_, ?_⟩
  · intro msgs
    unfold webhookHistoryParts
    exact hmap webhookTurnOf (fun a => rfl) _
  · intro msgs ts
    unfold sweepHistoryParts
    exact hmap sweepTurnOf (fun a => rfl) _
  · intro fromPhone mid nm cap med clock
    rfl

/-- C9 counterexample: with the token set and the transport post failing,
sendWhatsApp leaves the bot message recorded in the session history while
nothing was actually sent — the append of lines 723-727 precedes the
transport call and is not rolled back — refuting the claim that a failed
send leaves no corresponding message. -/
theorem c9_failed_send_recorded :
    messagesOf (sendWhatsApp "TOK"
      (fun _ => some ⟨some 500, none, "boom", some 500, none⟩)
      [] 7 0 "p1" (Payload.text "hello") false).sessions "p1" =
      [storageMsgOf 7 (Payload.text "hello")]
    ∧ (sendWhatsApp "TOK"
      (fun _ => some ⟨some 500, none, "boom", some 500, none⟩)
      [] 7 0 "p1" (Payload.text "hello") false).events = []
    ∧ (sendWhatsApp "TOK"
      (fun _ => some ⟨some 500, none, "boom", some 500, none⟩)
      [] 7 0 "p1" (Payload.text "hello") false).err =
      some ⟨some 500, none, "boom", some 500, none⟩ := by decide

/-- C9 amended: each sendWhatsApp run with a configured token appends
exactly the storage record of the requested payload to the recipient
history BEFORE contacting the transport; the post is performed (one sent
event, no error) precisely when the transport accepts it, while a
transport failure still leaves the appended record in place and rethrows. -/
theorem c9_append_before_send (tok : String) (tr : Nat → Option JsError)
    (ss : Sessions) (clock sendIdx : Nat) (toPhone : String) (p : Payload)
    (adm : Bool) (htok : tok ≠ "") :
    messagesOf (sendWhatsApp tok tr ss clock sendIdx toPhone p adm).sessions toPhone =
      messagesOf ss toPhone ++ [storageMsgOf clock p]
    ∧ ((sendWhatsApp tok tr ss clock sendIdx toPhone p adm).events =
        [Ev.sent toPhone p] ↔ tr sendIdx = none)
    ∧ (∀ e, tr sendIdx = some e →
      (sendWhatsApp tok tr ss clock sendIdx toPhone p adm).events = []
      ∧ (sendWhatsApp tok tr ss clock sendIdx toPhone p adm).err = some e) := by
  cases htr : tr sendIdx with
  | none =>
    rw [sendWhatsApp_ok ss clock sendIdx toPhone p adm htok htr]
    refine ⟨messagesOf_sendUpdate ss toPhone clock p adm, by simp, ?_⟩
    intro e he
    exact Option.noConfusion he
  | some e0 =>
    rw [sendWhatsApp_fail ss clock sendIdx toPhone p adm e0 htok htr]
    refine ⟨messagesOf_sendUpdate ss toPhone clock p adm, by simp [htr], ?_⟩
    intro e he
    cases he
    exact ⟨rfl, rfl⟩

theorem c9_append_before_send_witness :
    messagesOf (sendWhatsApp "TOK" (fun _ => none) [] 0 0 "p1"
      (Payload.text "hi") false).sessions "p1" =
      messagesOf [] "p1" ++ [storageMsgOf 0 (Payload.text "hi")] :=
  (c9_append_before_send "TOK" (fun _ => none) [] 0 0 "p1"
    (Payload.text "hi") false (by decide)).1

theorem c10_missing_token_drops_witness :
    sendWhatsApp "" (fun _ => none) [] 4 2 "p1" (Payload.text "hi") true =
      ⟨[], 4, 2, [], none⟩
    ∧ processWebhook ⟨"", "", []⟩ (fun _ => none) (fun _ _ _ => Except.ok [])
        [] [] 0 (Inbound.text "p1" "m1" "" "Hi") =
      ⟨afterInbound [] "p1" "" 0 ⟨"m1", "user", 0, "text", "Hi", none⟩, [], [], 1⟩ :=
  ⟨c10_missing_token_drops.1 (fun _ => none) [] 4 2 "p1" (Payload.text "hi") true,
    c10_missing_token_drops.2 ⟨"", "", []⟩ (fun _ => none) (fun _ _ _ => Except.ok [])
      [] [] 0 (Inbound.text "p1" "m1" "" "Hi") "p1" ⟨"m1", "user", 0, "text", "Hi", none⟩
      [GPart.text "Hi"] rfl rfl rfl rfl⟩

/-- C8 counterexample: a retry-sweep turn producing both images and text
dispatches the images back to back with NO inter-message delay (the
sweep image loop of lines 232-237 has no await), refuting the claim that
every such turn separates image sends from the text by a nonzero delay. -/
theorem c8_sweep_no_delay :
    imageDelayedOk (sweepItem ⟨"TOK", "KEY", [⟨"P1", ["a", "b"]⟩]⟩ (fun _ => none)
      (fun _ _ _ => Except.ok [⟨some "Here", none⟩,
        ⟨none, some ⟨"displayProduct", "P1", ""⟩⟩])
      [("p1", ⟨"p1", "c", [], "", 0, 0, true, false, none⟩)] [] 10
      ⟨"p1", [GPart.text "Hi"], 5⟩).events = false
    ∧ ((sweepItem ⟨"TOK", "KEY", [⟨"P1", ["a", "b"]⟩]⟩ (fun _ => none)
      (fun _ _ _ => Except.ok [⟨some "Here", none⟩,
        ⟨none, some ⟨"displayProduct", "P1", ""⟩⟩])
      [("p1", ⟨"p1", "c", [], "", 0, 0, true, false, none⟩)] [] 10
      ⟨"p1", [GPart.text "Hi"], 5⟩).events.any isSentImage) = true
    ∧ ((sweepItem ⟨"TOK", "KEY", [⟨"P1", ["a", "b"]⟩]⟩ (fun _ => none)
      (fun _ _ _ => Except.ok [⟨some "Here", none⟩,
        ⟨none, some ⟨"displayProduct", "P1", ""⟩⟩])
      [("p1", ⟨"p1", "c", [], "", 0, 0, true, false, none⟩)] [] 10
      ⟨"p1", [GPart.text "Hi"], 5⟩).events.any isSentText) = true := by decide

/-- C8 amended: for a turn producing both images and text with an
all-accepting transport, each image is dispatched as its own send and
the text is sent last; in the WEBHOOK pipeline every image send is
immediately followed by an 800 ms (nonzero) delay, while the retry-sweep
pipeline dispatches with no delay at all; in BOTH pipelines the recorded
message run appended to the session shows all image messages before the
text message with non-decreasing timestamps, and the queue is untouched. -/
theorem c8_dispatch_ordering :
    (∀ (env : Env) (tr : Nat → Option JsError)
      (att : List HistoryTurn → List GPart → Nat → Except JsError (List ModelPart))
      (ss : Sessions) (q : List QueueEntry) (clock : Nat) (inb : Inbound)
      (f : String) (m : Message) (g : List GPart) (parts : List ModelPart)
      (img0 : String) (irest : List String) (prod : Product),
      mkIncoming clock inb = some (f, m, g) →
      preActive ss f = true →
      env.apiKey ≠ "" →
      g ≠ [] →
      sendMessageWithRetry (att (webhookHistoryParts
        (appendedSession (baseSession ss f (inboundName inb) clock) m clock).messages) g) =
        .ok parts →
      (extractCalls parts).any (fun fc => fc.name == "escalateToAdmin") = false →
      (interpretToolCalls env.inventory (extractCalls parts)).1 = img0 :: irest →
      env.inventory.find? (fun p => p.images.contains img0) = some prod →
      extractText parts ≠ "" →
      env.accessToken ≠ "" →
      (∀ k, tr k = none) →
      (processWebhook env tr att ss q clock inb).events =
        expectedImgEvents f prod.id (some 800) 0 (img0 :: irest).length ++
          [Ev.sent f (Payload.text (formatResponseText (extractText parts)))]
      ∧ imageDelayedOk (processWebhook env tr att ss q clock inb).events = true
      ∧ (processWebhook env tr att ss q clock inb).queue = q
      ∧ messagesOf (processWebhook env tr att ss q clock inb).sessions f =
          messagesOf (afterInbound ss f (inboundName inb) clock m) f ++
            (expectedImgMsgs prod.id 0 (img0 :: irest).length (clock + 1) ++
              [storageMsgOf (clock + 1 + (img0 :: irest).length)
                (Payload.text (formatResponseText (extractText parts)))])
      ∧ imagesThenText (expectedImgMsgs prod.id 0 (img0 :: irest).length (clock + 1) ++
          [storageMsgOf (clock + 1 + (img0 :: irest).length)
            (Payload.text (formatResponseText (extractText parts)))]) = true
      ∧ nondecTs (expectedImgMsgs prod.id 0 (img0 :: irest).length (clock + 1) ++
          [storageMsgOf (clock + 1 + (img0 :: irest).length)
            (Payload.text (formatResponseText (extractText parts)))]) = true)
    ∧ (∀ (env : Env) (tr : Nat → Option JsError)
      (att : List HistoryTurn → List GPart → Nat → Except JsError (List ModelPart))
      (ss : Sessions) (q : List QueueEntry) (clock : Nat) (item : QueueEntry)
      (s : Session) (parts : List ModelPart)
      (img0 : String) (irest : List String) (prod : Product),
      getS ss item.toPhone = some s →
      s.botActive = true →
      sendMessageWithRetry (att (sweepHistoryParts s.messages item.timestamp) item.parts) =
        .ok parts →
      (extractCalls parts).any (fun fc => fc.name == "escalateToAdmin") = false →
      (interpretToolCalls env.inventory (extractCalls parts)).1 = img0 :: irest →
      env.inventory.find? (fun p => p.images.contains img0) = some prod →
      extractText parts ≠ "" →
      env.accessToken ≠ "" →
      (∀ k, tr k = none) →
      (sweepItem env tr att ss q clock item).events =
        expectedImgEvents item.toPhone prod.id none 0 (img0 :: irest).length ++
          [Ev.sent item.toPhone (Payload.text (formatResponseText (extractText parts)))]
      ∧ ((sweepItem env tr att ss q clock item).events.any isDelayedEv) = false
      ∧ (sweepItem env tr att ss q clock item).queue = q
      ∧ messagesOf (sweepItem env tr att ss q clock item).sessions item.toPhone =
          messagesOf ss item.toPhone ++
            (expectedImgMsgs prod.id 0 (img0 :: irest).length clock ++
              [storageMsgOf (clock + (img0 :: irest).length)
                (Payload.text (formatResponseText (extractText parts)))])
      ∧ imagesThenText (expectedImgMsgs prod.id 0 (img0 :: irest).length clock ++
          [storageMsgOf (clock + (img0 :: irest).length)
            (Payload.text (formatResponseText (extractText parts)))]) = true
      ∧ nondecTs (expectedImgMsgs prod.id 0 (img0 :: irest).length clock ++
          [storageMsgOf (clock + (img0 :: irest).length)
            (Payload.text (formatResponseText (extractText parts)))]) = true) := by
  constructor
  · intro env tr att ss q clock inb f m g parts img0 irest prod
      hmk hact hkey hg hok hnoesc himgs hfind htxt htok htr
    rw [processWebhook_infer env tr att ss q clock inb f m g hmk hact hkey hg]
    rw [webhookInfer_ok env tr att (afterInbound ss f (inboundName inb) clock m) q
      (clock + 1) f g _ parts hok]
    rw [respondStage_nolock env.accessToken tr env.inventory (some 800)
      (afterInbound ss f (inboundName inb) clock m) q (clock + 1) f parts _ hnoesc]
    rw [himgs]
    obtain ⟨d1, d2, d3, d4⟩ := dispatchStage_imgs_text env.accessToken tr
      env.inventory (some 800) (afterInbound ss f (inboundName inb) clock m)
      (clock + 1) f (extractText parts) q (fun e c => enqIf q f g e c)
      img0 irest prod htok htr htxt hfind
    refine ⟨d3, ?_, d1, d4, ?_, ?_⟩
    · rw [d3]
      exact imageDelayedOk_expected f prod.id
        (formatResponseText (extractText parts)) 800 (by decide)
        (img0 :: irest).length 0
    · exact imagesThenText_expected prod.id (formatResponseText (extractText parts))
        (img0 :: irest).length 0 (clock + 1) (clock + 1 + (img0 :: irest).length)
    · exact nondec_expected prod.id (formatResponseText (extractText parts))
        (img0 :: irest).length 0 (clock + 1) (clock + 1 + (img0 :: irest).length)
        (Nat.le_refl _)
  · intro env tr att ss q clock item s parts img0 irest prod
      hs hb hok hnoesc himgs hfind htxt htok htr
    rw [sweepItem_respond env tr att ss q clock item s parts hs hb hok]
    rw [respondStage_nolock env.accessToken tr env.inventory none ss q clock
      item.toPhone parts _ hnoesc]
    rw [himgs]
    obtain ⟨d1, d2, d3, d4⟩ := dispatchStage_imgs_text env.accessToken tr
      env.inventory none ss clock item.toPhone (extractText parts) q
      (fun e _ => if shouldEnqueue e then q ++ [item] else q)
      img0 irest prod htok htr htxt hfind
    refine ⟨d3, ?_, d1, d4, ?_, ?_⟩
    · rw [d3]
      exact noDelay_expected item.toPhone prod.id
        (formatResponseText (extractText parts)) (img0 :: irest).length 0
    · exact imagesThenText_expected prod.id (formatResponseText (extractText parts))
        (img0 :: irest).length 0 clock (clock + (img0 :: irest).length)
    · exact nondec_expected prod.id (formatResponseText (extractText parts))
        (img0 :: irest).length 0 clock (clock + (img0 :: irest).length)
        (Nat.le_refl _)

theorem c8_dispatch_ordering_witness :
    (processWebhook ⟨"TOK", "KEY", [⟨"P1", ["a", "b"]⟩]⟩ (fun _ => none)
      (fun _ _ _ => Except.ok [⟨some "Here you go", none⟩,
        ⟨none, some ⟨"displayProduct", "P1", ""⟩⟩])
      [] [] 0 (Inbound.text "p1" "m1" "" "Hi")).events =
      expectedImgEvents "p1" "P1" (some 800) 0 2 ++
        [Ev.sent "p1" (Payload.text (formatResponseText "Here you go"))]
    ∧ imageDelayedOk (processWebhook ⟨"TOK", "KEY", [⟨"P1", ["a", "b"]⟩]⟩ (fun _ => none)
      (fun _ _ _ => Except.ok [⟨some "Here you go", none⟩,
        ⟨none, some ⟨"displayProduct", "P1", ""⟩⟩])
      [] [] 0 (Inbound.text "p1" "m1" "" "Hi")).events = true := by
  have h := c8_dispatch_ordering.1 ⟨"TOK", "KEY", [⟨"P1", ["a", "b"]⟩]⟩ (fun _ => none)
    (fun _ _ _ => Except.ok [⟨some "Here you go", none⟩,
      ⟨none, some ⟨"displayProduct", "P1", ""⟩⟩])
    [] [] 0 (Inbound.text "p1" "m1" "" "Hi")
    "p1" ⟨"m1", "user", 0, "text", "Hi", none⟩ [GPart.text "Hi"]
    [⟨some "Here you go", none⟩, ⟨none, some ⟨"displayProduct", "P1", ""⟩⟩]
    "a" ["b"] ⟨"P1", ["a", "b"]⟩
    rfl rfl (by decide) (by decide) rfl (by decide) (by decide) rfl
    (by decide) (by decide) (fun _ => rfl)
  exact ⟨h.1, h.2.1⟩

end J123
